import Mathlib

/-!
Verification development for the content-clipper publishing pipeline
(backend/app/services: social_service.py, oauth_service.py,
tiktok_service.py, instagram_graph_service.py; backend/app/core/crypto.py).

The Python services are embedded shallowly: database rows become
structures, HTTP calls become oracle functions supplied through
environment records, and every network request issued by the embedded
code is recorded in a trace of ApiCall values.  Python exceptions are
modelled with Except over an Exn value carrying the exception class name
and its message; Python truthiness tests on optional strings are made
explicit through isTruthy.
-/

namespace ContentClipper

/-- Python exception: class name plus message. -/
structure Exn where
  kind : String
  msg : String
  deriving DecidableEq, Repr

/-- Result of a Python computation: a value or an uncaught exception. -/
abbrev PyResult (α : Type) := Except Exn α

/-- Helper building a ValueError. -/
def valueError (m : String) : Exn := ⟨"ValueError", m⟩

/-- Truthiness of an optional string (None and the empty string are falsy). -/
def isTruthy : Option String → Bool
  | none => false
  | some s => !s.isEmpty

/-- JSON-style string map, as used for the Account meta_info column. -/
abbrev StrMap := List (String × String)

/-- Lookup in a string map (dict.get), returning the value for the first
matching key. -/
def metaGet (m : StrMap) (k : String) : Option String :=
  (m.find? (fun p => p.1 == k)).map (·.2)

/-- Dictionary assignment: replace the binding for a key (or add it). -/
def metaSet (m : StrMap) (k v : String) : StrMap :=
  (k, v) :: m.filter (fun p => p.1 != k)

/-! ## app/core/crypto.py

The module instantiates one process-wide Fernet cipher from the FERNET_KEY
environment variable and fails at import time when the key is absent.  The
cipher itself is third-party (cryptography.fernet); it is abstracted as a
pair of string functions, and Fernet's documented guarantees (decryption
inverts encryption; ciphertexts are non-empty) appear as hypotheses of the
round-trip theorem. -/

/-- Abstract symmetric cipher standing for the process-wide Fernet instance. -/
structure Cipher where
  enc : String → String
  dec : String → String

/-- Embedding of encrypt_token: falsy input (None or empty) maps to None,
otherwise the Fernet encryption of the value. -/
def encrypt_token (c : Cipher) : Option String → Option String
  | none => none
  | some s => if s.isEmpty then none else some (c.enc s)

/-- Embedding of decrypt_token: falsy input maps to None, otherwise the
Fernet decryption of the value. -/
def decrypt_token (c : Cipher) : Option String → Option String
  | none => none
  | some s => if s.isEmpty then none else some (c.dec s)

/-! ## Data model (app/models) -/

/-- Embedding of models.social_post.SocialPlatform. -/
inductive SocialPlatform
  | twitter
  | linkedin
  | instagram
  | tiktok
  | youtube
  deriving DecidableEq, Repr

/-- String value of a platform enum member. -/
def SocialPlatform.value : SocialPlatform → String
  | .twitter => "twitter"
  | .linkedin => "linkedin"
  | .instagram => "instagram"
  | .tiktok => "tiktok"
  | .youtube => "youtube"

/-- Embedding of models.social_post.PostStatus. -/
inductive PostStatus
  | draft
  | scheduled
  | publishing
  | published
  | failed
  deriving DecidableEq, Repr

/-- Embedding of the social_posts row.  The hashtags column stores a JSON
array as text; it is modelled as the decoded list (None for the NULL
column), so the json.dumps/json.loads pair at the two ends is elided.
Timestamps are integer seconds. -/
structure SocialPost where
  id : Nat
  userId : Nat
  clipId : Nat
  platform : SocialPlatform
  title : Option String
  caption : Option String
  hashtags : Option (List String)
  scheduledFor : Option Int
  publishedAt : Option Int
  status : PostStatus
  platformPostId : Option String
  platformUrl : Option String
  errorMessage : Option String
  deriving DecidableEq, Repr

/-- Embedding of the accounts row: encrypted token columns, expiry,
active flag and the JSON meta_info map. -/
structure Account where
  id : Nat
  userId : Nat
  platform : String
  accountUsername : String
  accessTokenEnc : Option String
  refreshTokenEnc : Option String
  tokenExpiresAt : Option Int
  isActive : Bool
  metaInfo : StrMap
  deriving DecidableEq, Repr

/-- Clip attributes read by the publish helpers via getattr (each with the
default used at the access site when the attribute is absent). -/
structure Clip where
  id : Nat
  mediaUrl : Option String
  mediaType : Option String
  filePath : Option String
  carouselMediaUrls : List String
  carouselMediaTypes : List String
  storyMediaType : Option String
  duration : Option Nat
  width : Option Nat
  height : Option Nat
  deriving DecidableEq, Repr

/-- Network request issued by the embedded services.  Calls against the
Instagram Graph API and the TikTok open API record the bearer token they
were issued with; chunk PUTs go to the upload URL returned by the init
call and carry no token.  The two oauth constructors are the token
refresh requests issued only by oauth_service.refresh_account_token. -/
inductive ApiCall
  | igCreateImageContainer (token igAccountId imageUrl : String) (caption : Option String)
  | igCreateVideoContainer (token igAccountId videoUrl : String) (caption : Option String)
      (mediaType : String)
  | igCheckContainerStatus (token containerId : String)
  | igCreateCarouselContainer (token igAccountId : String) (children : List String)
      (caption : Option String)
  | igCreateStoryContainer (token igAccountId mediaUrl mediaType : String)
  | igPublishContainer (token igAccountId creationId : String)
  | igGetMediaDetails (token mediaId : String)
  | ttCreatorInfoQuery (token : String)
  | ttInboxVideoInitUrl (token videoUrl : String)
  | ttInboxVideoInitFile (token : String) (videoSize chunkSize totalChunkCount : Nat)
  | ttContentInitPhoto (token : String) (photoUrls : List String)
      (title privacyLevel : String) (disableComment : Bool)
  | ttUploadChunk (rangeStart rangeStop total : Nat)
  | ttStatusFetch (token publishId : String)
  | oauthTokenRefresh (platform : String)
  | oauthPageTokenFetch (pageId : String)
  deriving DecidableEq, Repr

/-- Bearer token carried by a call, when it carries one. -/
def ApiCall.callToken : ApiCall → Option String
  | .igCreateImageContainer t _ _ _ => some t
  | .igCreateVideoContainer t _ _ _ _ => some t
  | .igCheckContainerStatus t _ => some t
  | .igCreateCarouselContainer t _ _ _ => some t
  | .igCreateStoryContainer t _ _ _ => some t
  | .igPublishContainer t _ _ => some t
  | .igGetMediaDetails t _ => some t
  | .ttCreatorInfoQuery t => some t
  | .ttInboxVideoInitUrl t _ => some t
  | .ttInboxVideoInitFile t _ _ _ => some t
  | .ttContentInitPhoto t _ _ _ _ => some t
  | .ttUploadChunk _ _ _ => none
  | .ttStatusFetch t _ => some t
  | .oauthTokenRefresh _ => none
  | .oauthPageTokenFetch _ => none

/-- Whether a call is one of the oauth token refresh requests. -/
def ApiCall.isRefreshCall : ApiCall → Bool
  | .oauthTokenRefresh _ => true
  | .oauthPageTokenFetch _ => true
  | _ => false

/-- Lowercasing as used by the sources' str.lower() calls (character-wise
over the string's characters, which kernel-reduces unlike String.toLower's
byte-position implementation). -/
def strLower (s : String) : String := ⟨s.data.map Char.toLower⟩

/-- Uppercasing as used by the sources' str.upper() calls. -/
def strUpper (s : String) : String := ⟨s.data.map Char.toUpper⟩

/-- Caption construction shared by the publish helpers: the caption (or
empty string) with the hashtag list appended after a blank line whenever
the hashtags column is non-NULL (an empty JSON array still triggers the
append, matching Python truthiness of the non-empty column text). -/
def buildCaption (caption : Option String) (hashtags : Option (List String)) : String :=
  let c := caption.getD ""
  match hashtags with
  | some l => c ++ "\n\n" ++ String.intercalate " " l
  | none => c

/-! ## TikTok chunk arithmetic (tiktok_service.init_video_upload and the
upload loop of upload_video_file) -/

/-- Chunk size constant of TikTokService (10MB). -/
def ttChunkSize : Nat := 10 * 1024 * 1024

/-- Maximum video size constant of TikTokService (4GB). -/
def ttMaxVideoSize : Nat := 4 * 1024 * 1024 * 1024

/-- Chunk declaration computed by init_video_upload: above 64MB the chunk
size is the caller's (falling back to the 10MB constant when absent or
zero) with ceiling-divided chunk count; at or below 64MB a single chunk of
the whole size. -/
def tiktokChunkInfo (videoSize : Nat) (chunkSize : Option Nat) : Nat × Nat :=
  if videoSize > 64 * 1024 * 1024 then
    let actual := match chunkSize with
      | some c => if c ≠ 0 then c else ttChunkSize
      | none => ttChunkSize
    (actual, (videoSize + actual - 1) / actual)
  else
    (videoSize, 1)

/-- Byte ranges sent by the upload loop of upload_video_file: starting at
the given offset with the given bytes remaining, repeatedly send
min(10MB, remaining) bytes.  A pair (a, b) stands for the half-open byte
range [a, b), i.e. Content-Range bytes a-(b-1). -/
def tiktokChunkRanges : Nat → Nat → List (Nat × Nat)
  | _, 0 => []
  | start, remaining + 1 =>
    let c := min ttChunkSize (remaining + 1)
    (start, start + c) :: tiktokChunkRanges (start + c) (remaining + 1 - c)
termination_by _ remaining => remaining
decreasing_by
  simp only [ttChunkSize] at *
  omega

/-- Bytes enumerated by a list of half-open ranges, in order. -/
def rangesBytes (l : List (Nat × Nat)) : List Nat :=
  l.flatMap (fun p => List.range' p.1 (p.2 - p.1))

/-! ## Bounded polling loops -/

/-- Container status record returned by the Instagram status poll (the
status_code and status fields of the response). -/
structure IgStatus where
  statusCode : Option String
  status : Option String
  deriving DecidableEq, Repr

/-- String interpolation of an optional value, as Python f-strings print
None. -/
def optStr (o : Option String) : String := o.getD "None"

/-- Instagram container-status polling loop of social_service (the
max_attempts = 30 loops in _publish_to_instagram): one status check per
iteration; FINISHED breaks out, ERROR raises immediately with the given
message builder, and exhausting the attempts raises the timeout
exception.  Arguments are the status oracle (indexed by attempt), the
failure-message builder, the timeout exception, the current attempt index
and the remaining iteration count; the result is paired with the number
of status checks performed. -/
def igPollLoop (check : Nat → PyResult IgStatus) (failMsg : Option String → String)
    (timeoutExn : Exn) : Nat → Nat → PyResult Unit × Nat
  | _, 0 => (.ok (), 0)
  | attempt, remaining + 1 =>
    match check attempt with
    | .error e => (.error e, 1)
    | .ok st =>
      if st.statusCode = some "FINISHED" then (.ok (), 1)
      else if st.statusCode = some "ERROR" then
        (.error ⟨"InstagramGraphAPIError", failMsg st.status⟩, 1)
      else if remaining = 0 then (.error timeoutExn, 1)
      else
        let rec_ := igPollLoop check failMsg timeoutExn (attempt + 1) remaining
        (rec_.1, rec_.2 + 1)

/-- Item of the created_items list in a TikTok publish status response. -/
structure TtItem where
  itemId : Option String
  deriving DecidableEq, Repr

/-- Data of a TikTok publish status response. -/
structure TtStatusData where
  status : Option String
  failReason : Option String
  createdItems : List TtItem
  deriving DecidableEq, Repr

/-- Timeout message raised by wait_for_publish. -/
def ttTimeoutMsg (maxAttempts : Nat) (publishId : String) : String :=
  "TikTok publish timed out after " ++ toString maxAttempts ++
    " attempts for publish_id: " ++ publishId

/-- TikTok wait_for_publish polling loop: one status fetch per iteration;
PUBLISH_COMPLETE and SEND_TO_USER_INBOX return the status data, FAILED
raises immediately, anything else sleeps and retries; exhausting
max_attempts raises the timeout error.  The maxAttempts and publishId
arguments only shape the timeout message; attempt and remaining drive the
loop.  The result is paired with the number of status fetches
performed. -/
def waitForPublish (getStatus : Nat → PyResult TtStatusData) (maxAttempts : Nat)
    (publishId : String) : Nat → Nat → PyResult TtStatusData × Nat
  | _, 0 => (.error ⟨"TikTokAPIError", ttTimeoutMsg maxAttempts publishId⟩, 0)
  | attempt, remaining + 1 =>
    match getStatus attempt with
    | .error e => (.error e, 1)
    | .ok sd =>
      if sd.status = some "PUBLISH_COMPLETE" then (.ok sd, 1)
      else if sd.status = some "SEND_TO_USER_INBOX" then (.ok sd, 1)
      else if sd.status = some "FAILED" then
        (.error ⟨"TikTokAPIError",
          "TikTok publish failed: " ++ (sd.failReason.getD "Unknown")⟩, 1)
      else
        let rec_ := waitForPublish getStatus maxAttempts publishId (attempt + 1) remaining
        (rec_.1, rec_.2 + 1)

/-! ## oauth_service.py: token persistence and refresh -/

/-- Token response of an OAuth provider (the fields read by
oauth_service): access_token, refresh_token and expires_in. -/
structure TokenData where
  accessToken : Option String
  refreshToken : Option String
  expiresIn : Option Int
  deriving DecidableEq, Repr

/-- Provider-side oracles used by refresh_account_token: the token
refresh request of the platform's provider (fb_exchange_token for
Instagram, refresh_token grant otherwise) and the Facebook page-token
fetch (refresh_page_access_token, returning None when the page is not
found). -/
structure OAuthEnv where
  refreshAccessToken : String → String → PyResult TokenData
  refreshPageAccessToken : Option String → String → PyResult (Option String)

/-- Expiry computation shared by save_oauth_tokens and
refresh_account_token: a truthy expires_in yields now + expires_in,
otherwise the fallback (None when saving, the previous value when
refreshing). -/
def expiryFrom (now : Int) (expiresIn : Option Int) (fallback : Option Int) : Option Int :=
  match expiresIn with
  | some e => if e ≠ 0 then some (now + e) else fallback
  | none => fallback

/-- Embedding of save_oauth_tokens: both the update-existing and the
create-new branch produce an account whose encrypted token columns hold
encrypt_token of the provider tokens, whose expiry comes from expires_in,
and whose meta_info is the user_info dict stored verbatim. -/
def saveOauthTokens (c : Cipher) (now : Int) (userId : Nat) (platform : String)
    (tokenData : TokenData) (userInfo : StrMap) (existing : Option Account) : Account :=
  let expiresAt := expiryFrom now tokenData.expiresIn none
  match existing with
  | some acct =>
    { acct with
      accessTokenEnc := encrypt_token c tokenData.accessToken
      refreshTokenEnc := encrypt_token c tokenData.refreshToken
      tokenExpiresAt := expiresAt
      isActive := true
      accountUsername := (metaGet userInfo "username").getD ""
      metaInfo := userInfo }
  | none =>
    { id := 0
      userId := userId
      platform := platform
      accountUsername := (metaGet userInfo "username").getD ""
      accessTokenEnc := encrypt_token c tokenData.accessToken
      refreshTokenEnc := encrypt_token c tokenData.refreshToken
      tokenExpiresAt := expiresAt
      isActive := true
      metaInfo := userInfo }

/-- Outcome of refresh_account_token: the returned-or-raised result, the
account row as persisted by the commits along the way (deactivated when
the refresh failed inside the try block), and the network calls made. -/
structure RefreshOutcome where
  result : PyResult Account
  persisted : Account
  calls : List ApiCall
  deriving Repr

/-- Embedding of refresh_account_token.  Instagram branch: decrypt the
stored long-lived user token (raising before the try block when absent),
exchange it via the provider, re-encrypt the new token, update the expiry
when expires_in is truthy, and when meta_info holds a facebook_page_id
fetch a fresh page token and store it (in plaintext) under the
access_token key of meta_info.  Other platforms: decrypt the stored
refresh token (raising when absent), run the refresh_token grant,
re-encrypt the returned tokens and update the expiry.  Any error inside
the try block deactivates the account and re-raises. -/
def refreshAccountToken (env : OAuthEnv) (c : Cipher) (now : Int)
    (acct : Account) : RefreshOutcome :=
  if acct.platform = "instagram" then
    match decrypt_token c acct.accessTokenEnc with
    | none =>
      ⟨.error (valueError "No access token available for Instagram refresh"), acct, []⟩
    | some tok =>
      if tok.isEmpty then
        ⟨.error (valueError "No access token available for Instagram refresh"), acct, []⟩
      else
        match env.refreshAccessToken "instagram" tok with
        | .error e =>
          ⟨.error e, { acct with isActive := false }, [.oauthTokenRefresh "instagram"]⟩
        | .ok td =>
          let newAccess := td.accessToken
          let acct1 := { acct with
            accessTokenEnc := encrypt_token c newAccess
            tokenExpiresAt := expiryFrom now td.expiresIn acct.tokenExpiresAt }
          match metaGet acct.metaInfo "facebook_page_id" with
          | some pageId =>
            if pageId.isEmpty then
              ⟨.ok acct1, acct1, [.oauthTokenRefresh "instagram"]⟩
            else
              match env.refreshPageAccessToken newAccess pageId with
              | .error e =>
                ⟨.error e, { acct1 with isActive := false },
                  [.oauthTokenRefresh "instagram", .oauthPageTokenFetch pageId]⟩
              | .ok pageTok? =>
                match pageTok? with
                | some pt =>
                  let acct2 := { acct1 with metaInfo := metaSet acct1.metaInfo "access_token" pt }
                  ⟨.ok acct2, acct2,
                    [.oauthTokenRefresh "instagram", .oauthPageTokenFetch pageId]⟩
                | none =>
                  ⟨.ok acct1, acct1,
                    [.oauthTokenRefresh "instagram", .oauthPageTokenFetch pageId]⟩
          | none =>
            ⟨.ok acct1, acct1, [.oauthTokenRefresh "instagram"]⟩
  else
    match decrypt_token c acct.refreshTokenEnc with
    | none => ⟨.error (valueError "No refresh token available"), acct, []⟩
    | some rtok =>
      if rtok.isEmpty then
        ⟨.error (valueError "No refresh token available"), acct, []⟩
      else
        match env.refreshAccessToken acct.platform rtok with
        | .error e =>
          ⟨.error e, { acct with isActive := false }, [.oauthTokenRefresh acct.platform]⟩
        | .ok td =>
          let acct1 := { acct with
            accessTokenEnc := encrypt_token c td.accessToken
            refreshTokenEnc :=
              if isTruthy td.refreshToken then encrypt_token c td.refreshToken
              else acct.refreshTokenEnc
            tokenExpiresAt := expiryFrom now td.expiresIn acct.tokenExpiresAt }
          ⟨.ok acct1, acct1, [.oauthTokenRefresh acct.platform]⟩

/-- Outcome of get_valid_access_token: the returned token (None when the
stored ciphertext decrypts to nothing) or the propagated refresh error,
whether a refresh was attempted, the persisted account, and the calls
made. -/
structure ValidTokenOutcome where
  result : PyResult (Option String)
  refreshAttempted : Bool
  persisted : Account
  calls : List ApiCall
  deriving Repr

/-- Expiry buffer of get_valid_access_token in seconds: 7 days for
Instagram, 5 minutes otherwise. -/
def tokenBuffer (platform : String) : Int :=
  if platform = "instagram" then 7 * 24 * 60 * 60 else 5 * 60

/-- Embedding of get_valid_access_token: when the account has an expiry
and now + buffer reaches it, refresh synchronously (propagating a refresh
failure); then return the page access token stored in meta_info for
Instagram accounts when present, and otherwise the decryption of the
stored access token. -/
def getValidAccessToken (env : OAuthEnv) (c : Cipher) (now : Int)
    (acct : Account) : ValidTokenOutcome :=
  let afterRefresh : PyResult Account × Bool × Account × List ApiCall :=
    match acct.tokenExpiresAt with
    | some expiresAt =>
      if now + tokenBuffer acct.platform ≥ expiresAt then
        let r := refreshAccountToken env c now acct
        (r.result, true, r.persisted, r.calls)
      else (.ok acct, false, acct, [])
    | none => (.ok acct, false, acct, [])
  match afterRefresh with
  | (.error e, attempted, persisted, calls) => ⟨.error e, attempted, persisted, calls⟩
  | (.ok acct', attempted, persisted, calls) =>
    if acct'.platform = "instagram" then
      match metaGet acct'.metaInfo "access_token" with
      | some pt =>
        if pt.isEmpty then
          ⟨.ok (decrypt_token c acct'.accessTokenEnc), attempted, persisted, calls⟩
        else ⟨.ok (some pt), attempted, persisted, calls⟩
      | none => ⟨.ok (decrypt_token c acct'.accessTokenEnc), attempted, persisted, calls⟩
    else ⟨.ok (decrypt_token c acct'.accessTokenEnc), attempted, persisted, calls⟩

/-! ## tiktok_service.py -/

/-- Creator info returned by the creator_info/query/ endpoint (the fields
read by the endpoint-layer validation). -/
structure CreatorInfo where
  privacyLevelOptions : List String
  duetDisabled : Bool
  commentDisabled : Bool
  stitchDisabled : Bool
  deriving DecidableEq, Repr

/-- Server-side oracles of the TikTok Content Posting API.  The init
oracles return the optional publish_id (and upload_url) fields of the
response body; statusFetch is indexed by the poll attempt so the remote
job can evolve over time; putChunk answers one chunk PUT to the upload
URL (the service's bounded per-chunk retry is folded into this outcome:
an error here stands for three consecutive failed attempts); fileSize is
os.path.getsize. -/
structure TtEnv where
  creatorInfoQuery : String → PyResult CreatorInfo
  initInboxUrl : String → String → PyResult (Option String)
  initInboxFile : String → Nat → Nat → Nat → PyResult (Option String × Option String)
  contentInitPhoto : String → List String → String → String → Bool →
    PyResult (Option String)
  putChunk : Nat → Nat → Nat → PyResult Unit
  statusFetch : String → String → Nat → PyResult TtStatusData
  fileSize : String → Nat

/-- Embedding of publish_video_by_url: a single inbox video init call
with PULL_FROM_URL source info (the title, privacy and interaction
arguments are unused by the source), raising when the response carries no
publish_id. -/
def publishVideoByUrl (env : TtEnv) (token videoUrl : String) :
    PyResult String × List ApiCall :=
  let call := ApiCall.ttInboxVideoInitUrl token videoUrl
  match env.initInboxUrl token videoUrl with
  | .error e => (.error e, [call])
  | .ok pid? =>
    match pid? with
    | some pid =>
      if pid.isEmpty then
        (.error ⟨"TikTokAPIError", "No publish_id returned from video init"⟩, [call])
      else (.ok pid, [call])
    | none => (.error ⟨"TikTokAPIError", "No publish_id returned from video init"⟩, [call])

/-- Embedding of init_video_upload: declares the chunking computed by
tiktokChunkInfo in the FILE_UPLOAD source info and raises when the
response misses the publish_id or the upload_url. -/
def initVideoUpload (env : TtEnv) (token : String) (videoSize : Nat)
    (chunkSize : Option Nat) : PyResult (String × String) × List ApiCall :=
  let info := tiktokChunkInfo videoSize chunkSize
  let call := ApiCall.ttInboxVideoInitFile token videoSize info.1 info.2
  match env.initInboxFile token videoSize info.1 info.2 with
  | .error e => (.error e, [call])
  | .ok (pid?, url?) =>
    match pid?, url? with
    | some pid, some url =>
      if pid.isEmpty || url.isEmpty then
        (.error ⟨"TikTokAPIError",
          "Failed to initialize video upload: missing publish_id or upload_url"⟩, [call])
      else (.ok (pid, url), [call])
    | _, _ =>
      (.error ⟨"TikTokAPIError",
        "Failed to initialize video upload: missing publish_id or upload_url"⟩, [call])

/-- Upload loop of upload_video_file: sends successive 10MB slices (the
last one truncated) with Content-Range headers until all bytes are sent,
raising when a chunk fails after its retries. -/
def ttUploadChunksLoop (put : Nat → Nat → Nat → PyResult Unit) (total : Nat) :
    Nat → Nat → PyResult Unit × List ApiCall
  | _, 0 => (.ok (), [])
  | start, remaining + 1 =>
    let c := min ttChunkSize (remaining + 1)
    let call := ApiCall.ttUploadChunk start (start + c) total
    match put start (start + c) total with
    | .error e =>
      (.error ⟨"TikTokAPIError", "Chunk upload failed after 3 retries: " ++ e.msg⟩, [call])
    | .ok _ =>
      let rest := ttUploadChunksLoop put total (start + c) (remaining + 1 - c)
      (rest.1, call :: rest.2)
termination_by _ remaining => remaining
decreasing_by
  simp only [ttChunkSize] at *
  omega

/-- Embedding of upload_video_file: measure the file, reject sizes above
4GB, initialize the upload (with the default chunk_size of None) and run
the chunked upload loop over the whole file. -/
def uploadVideoFile (env : TtEnv) (token filePath : String) :
    PyResult String × List ApiCall :=
  let videoSize := env.fileSize filePath
  if videoSize > ttMaxVideoSize then
    (.error ⟨"TikTokAPIError",
      "Video file exceeds maximum size of " ++ toString ttMaxVideoSize ++ " bytes"⟩, [])
  else
    match initVideoUpload env token videoSize none with
    | (.error e, calls) => (.error e, calls)
    | (.ok (pid, _url), calls) =>
      let up := ttUploadChunksLoop env.putChunk videoSize 0 videoSize
      match up.1 with
      | .error e => (.error e, calls ++ up.2)
      | .ok _ => (.ok pid, calls ++ up.2)

/-- Embedding of publish_photo_post: validate the 1..35 image count,
truncate the title to 2200 characters and issue one DIRECT_POST content
init call, raising when the response carries no publish_id. -/
def publishPhotoPost (env : TtEnv) (token : String) (photoUrls : List String)
    (title privacyLevel : String) (disableComment : Bool) :
    PyResult String × List ApiCall :=
  if photoUrls.isEmpty then
    (.error ⟨"TikTokAPIError", "At least one photo URL is required"⟩, [])
  else if photoUrls.length > 35 then
    (.error ⟨"TikTokAPIError", "Maximum 35 images allowed per photo post"⟩, [])
  else
    let call := ApiCall.ttContentInitPhoto token photoUrls (title.take 2200)
      privacyLevel disableComment
    match env.contentInitPhoto token photoUrls (title.take 2200) privacyLevel
        disableComment with
    | .error e => (.error e, [call])
    | .ok pid? =>
      match pid? with
      | some pid =>
        if pid.isEmpty then
          (.error ⟨"TikTokAPIError", "No publish_id returned from photo post init"⟩, [call])
        else (.ok pid, [call])
      | none =>
        (.error ⟨"TikTokAPIError", "No publish_id returned from photo post init"⟩, [call])

/-- Endpoint-layer enforcement in api/v1/endpoints/tiktok.py
(_validate_with_creator_info), applied to an already-fetched creator
info: fall back to the first allowed privacy option when the requested
one is not allowed, move branded content away from SELF_ONLY, and force
each interaction lock on when the creator-level lock is set. -/
def validateWithCreatorInfo (ci : CreatorInfo) (privacyLevel : String)
    (disableDuet disableComment disableStitch brandContentToggle : Bool) :
    String × Bool × Bool × Bool :=
  let p1 :=
    if ci.privacyLevelOptions ≠ [] ∧ privacyLevel ∉ ci.privacyLevelOptions then
      ci.privacyLevelOptions.headD privacyLevel
    else privacyLevel
  let p2 :=
    if brandContentToggle ∧ p1 = "SELF_ONLY" then
      (ci.privacyLevelOptions.find? (fun o => o ≠ "SELF_ONLY")).getD "PUBLIC_TO_EVERYONE"
    else p1
  (p2, disableDuet || ci.duetDisabled, disableComment || ci.commentDisabled,
    disableStitch || ci.stitchDisabled)

/-- Endpoint flow of POST /tiktok/publish/video/url: query creator info,
enforce its constraints, then call the service's publish_video_by_url. -/
def endpointPublishVideoByUrl (env : TtEnv) (token videoUrl privacyLevel : String)
    (disableDuet disableComment disableStitch brandContentToggle : Bool) :
    PyResult String × List ApiCall :=
  match env.creatorInfoQuery token with
  | .error e => (.error e, [.ttCreatorInfoQuery token])
  | .ok ci =>
    let _checked := validateWithCreatorInfo ci privacyLevel disableDuet
      disableComment disableStitch brandContentToggle
    let r := publishVideoByUrl env token videoUrl
    (r.1, .ttCreatorInfoQuery token :: r.2)

/-! ## The per-platform publish helpers of social_service.py -/

/-- Result dict of a publish helper: platform_post_id and platform_url. -/
structure AdapterResult where
  platformPostId : String
  platformUrl : Option String
  deriving DecidableEq, Repr

/-- Except-clause wrapper of the publish helpers: applies the error
translation to a raised exception and passes successful results (and the
call trace) through unchanged. -/
def wrapErr (f : Exn → Exn) (p : PyResult AdapterResult × List ApiCall) :
    PyResult AdapterResult × List ApiCall :=
  match p with
  | (.error e, calls) => (.error (f e), calls)
  | ok => ok

/-- Error translation of the except clause at the end of
_publish_to_tiktok: TikTok API errors (including the auth subclass)
become ValueErrors with a prefixed message, everything else is
re-raised. -/
def ttWrap (e : Exn) : Exn :=
  if e.kind = "TikTokAPIError" ∨ e.kind = "TikTokAuthError" then
    ⟨"ValueError", "TikTok API error: " ++ e.msg⟩
  else e

/-- Embedding of _publish_to_tiktok: decrypt the stored access token
(raising when falsy), build the caption, then publish a video (by file
upload when the clip has a file path, else by URL) or a photo post and
wait for the publish job with the default 30 poll attempts, deriving the
platform post id and URL from the first created item when present. -/
def publishToTiktok (env : TtEnv) (c : Cipher) (post : SocialPost) (clip : Clip)
    (acct : Account) : PyResult AdapterResult × List ApiCall :=
  match decrypt_token c acct.accessTokenEnc with
  | none => (.error (valueError "Invalid TikTok access token"), [])
  | some tok =>
    if tok.isEmpty then (.error (valueError "Invalid TikTok access token"), [])
    else
      let caption := buildCaption post.caption post.hashtags
      let mediaType := strLower (clip.mediaType.getD "video")
      let body : PyResult AdapterResult × List ApiCall :=
        if mediaType = "video" ∨ mediaType = "reel" then
          let step1 : PyResult String × List ApiCall :=
            if isTruthy clip.filePath then
              uploadVideoFile env tok (clip.filePath.getD "")
            else if isTruthy clip.mediaUrl then
              publishVideoByUrl env tok (clip.mediaUrl.getD "")
            else (.error (valueError "Clip does not have a file path or media URL"), [])
          match step1 with
          | (.error e, calls1) => (.error e, calls1)
          | (.ok pid, calls1) =>
            let w := waitForPublish (env.statusFetch tok pid) 30 pid 0 30
            let calls2 := List.replicate w.2 (ApiCall.ttStatusFetch tok pid)
            match w.1 with
            | .error e => (.error e, calls1 ++ calls2)
            | .ok sd =>
              let itemId :=
                match sd.createdItems with
                | [] => pid
                | item :: _ => item.itemId.getD pid
              (.ok ⟨itemId, some ("https://www.tiktok.com/@user/video/" ++ itemId)⟩,
                calls1 ++ calls2)
        else if mediaType = "image" ∨ mediaType = "photo" then
          if !(isTruthy clip.mediaUrl) then
            (.error (valueError "Photo post requires a media URL"), [])
          else
            let photoUrls :=
              if clip.carouselMediaUrls.isEmpty then [clip.mediaUrl.getD ""]
              else clip.carouselMediaUrls
            match publishPhotoPost env tok photoUrls caption "PUBLIC_TO_EVERYONE" false with
            | (.error e, calls1) => (.error e, calls1)
            | (.ok pid, calls1) =>
              let w := waitForPublish (env.statusFetch tok pid) 30 pid 0 30
              let calls2 := List.replicate w.2 (ApiCall.ttStatusFetch tok pid)
              match w.1 with
              | .error e => (.error e, calls1 ++ calls2)
              | .ok sd =>
                let itemId :=
                  match sd.createdItems with
                  | [] => pid
                  | item :: _ => item.itemId.getD pid
                (.ok ⟨itemId, some ("https://www.tiktok.com/@user/photo/" ++ itemId)⟩,
                  calls1 ++ calls2)
        else
          (.error (valueError ("Unsupported media type for TikTok: " ++ mediaType)), [])
      wrapErr ttWrap body

/-- Server-side oracles of the Instagram Graph API, one per client method
used by _publish_to_instagram.  Container-creating oracles return the id
field of the response; checkContainerStatus is additionally indexed by
the poll attempt; getMediaDetails returns the optional permalink
field. -/
structure IgEnv where
  createImageContainer : String → String → String → Option String → PyResult String
  createVideoContainer : String → String → String → Option String → String → PyResult String
  checkContainerStatus : String → String → Nat → PyResult IgStatus
  createCarouselContainer : String → String → List String → Option String → PyResult String
  createStoryContainer : String → String → String → String → PyResult String
  publishContainer : String → String → String → PyResult String
  getMediaDetails : String → String → PyResult (Option String)

/-- Error translation of the except clause at the end of
_publish_to_instagram: Instagram Graph API errors become ValueErrors with
a prefixed message, everything else is re-raised. -/
def igWrap (e : Exn) : Exn :=
  if e.kind = "InstagramGraphAPIError" then
    ⟨"ValueError", "Instagram API error: " ++ e.msg⟩
  else e

/-- Carousel child-container loop of _publish_to_instagram: for each
carousel media URL, create an image container (no caption) or a video
container (no caption, default REELS media type, followed by the bounded
status poll), collecting the child container ids; an unsupported child
media type raises. -/
def igCarouselChildren (env : IgEnv) (token igid : String) (types : List String) :
    List String → Nat → PyResult (List String) × List ApiCall
  | [], _ => (.ok [], [])
  | url :: rest, i =>
    let ctype := types.getD i "image"
    if ctype = "image" ∨ ctype = "photo" then
      let call := ApiCall.igCreateImageContainer token igid url none
      match env.createImageContainer token igid url none with
      | .error e => (.error e, [call])
      | .ok cid =>
        let r := igCarouselChildren env token igid types rest (i + 1)
        (r.1.map (fun l => cid :: l), call :: r.2)
    else if ctype = "video" then
      let call := ApiCall.igCreateVideoContainer token igid url none "REELS"
      match env.createVideoContainer token igid url none "REELS" with
      | .error e => (.error e, [call])
      | .ok cid =>
        let poll := igPollLoop (env.checkContainerStatus token cid)
          (fun st => "Carousel video processing failed: " ++ optStr st)
          ⟨"InstagramGraphAPIError", "Carousel video processing timeout"⟩ 0 30
        let pollCalls := List.replicate poll.2 (ApiCall.igCheckContainerStatus token cid)
        match poll.1 with
        | .error e => (.error e, call :: pollCalls)
        | .ok _ =>
          let r := igCarouselChildren env token igid types rest (i + 1)
          (r.1.map (fun l => cid :: l), call :: (pollCalls ++ r.2))
    else
      (.error (valueError ("Unsupported carousel child media type: " ++ ctype)), [])

/-- Media-type branching of _publish_to_instagram that creates the media
container for the clip: a plain image container, a REELS video container
followed by the bounded status poll, carousel children (2 to 10,
validated before any network call) assembled into a carousel container,
or a story container (polled when the story is a video); an unsupported
media type raises. -/
def igCreateContainerForClip (env : IgEnv) (tok igid caption : String) (clip : Clip) :
    PyResult String × List ApiCall :=
  let mediaUrl := clip.mediaUrl.getD ""
  let mediaType := strLower (clip.mediaType.getD "video")
  if mediaType = "image" ∨ mediaType = "photo" then
    let call := ApiCall.igCreateImageContainer tok igid mediaUrl (some caption)
    (env.createImageContainer tok igid mediaUrl (some caption), [call])
  else if mediaType = "video" ∨ mediaType = "reel" then
    let call := ApiCall.igCreateVideoContainer tok igid mediaUrl (some caption) "REELS"
    match env.createVideoContainer tok igid mediaUrl (some caption) "REELS" with
    | .error e => (.error e, [call])
    | .ok cid =>
      let poll := igPollLoop (env.checkContainerStatus tok cid)
        (fun st => "Video processing failed: " ++ optStr st)
        ⟨"InstagramGraphAPIError", "Video processing timeout"⟩ 0 30
      let pollCalls := List.replicate poll.2 (ApiCall.igCheckContainerStatus tok cid)
      match poll.1 with
      | .error e => (.error e, call :: pollCalls)
      | .ok _ => (.ok cid, call :: pollCalls)
  else if mediaType = "carousel" then
    let urls := clip.carouselMediaUrls
    if urls.isEmpty ∨ urls.length < 2 then
      (.error (valueError "Carousel requires at least 2 media items"), [])
    else if urls.length > 10 then
      (.error (valueError "Carousel supports a maximum of 10 media items"), [])
    else
      match igCarouselChildren env tok igid clip.carouselMediaTypes urls 0 with
      | (.error e, calls) => (.error e, calls)
      | (.ok children, calls) =>
        let call := ApiCall.igCreateCarouselContainer tok igid children (some caption)
        match env.createCarouselContainer tok igid children (some caption) with
        | .error e => (.error e, calls ++ [call])
        | .ok cid => (.ok cid, calls ++ [call])
  else if mediaType = "story" then
    let smt := strUpper (clip.storyMediaType.getD "IMAGE")
    let call := ApiCall.igCreateStoryContainer tok igid mediaUrl smt
    match env.createStoryContainer tok igid mediaUrl smt with
    | .error e => (.error e, [call])
    | .ok cid =>
      if smt = "VIDEO" then
        let poll := igPollLoop (env.checkContainerStatus tok cid)
          (fun st => "Story video processing failed: " ++ optStr st)
          ⟨"InstagramGraphAPIError", "Story video processing timeout"⟩ 0 30
        let pollCalls := List.replicate poll.2 (ApiCall.igCheckContainerStatus tok cid)
        match poll.1 with
        | .error e => (.error e, call :: pollCalls)
        | .ok _ => (.ok cid, call :: pollCalls)
      else (.ok cid, [call])
  else
    (.error (valueError ("Unsupported media type: " ++ mediaType)), [])

/-- Embedding of _publish_to_instagram: decrypt the stored access token
and read the Instagram business account id from meta_info (raising when
either is falsy), build the caption, create the media container for the
clip's media type (polling container status for videos, carousel video
children and video stories, with 30 attempts each), publish the
container, and fetch the permalink. -/
def publishToInstagram (env : IgEnv) (c : Cipher) (post : SocialPost) (clip : Clip)
    (acct : Account) : PyResult AdapterResult × List ApiCall :=
  match decrypt_token c acct.accessTokenEnc with
  | none => (.error (valueError "Invalid access token"), [])
  | some tok =>
    if tok.isEmpty then (.error (valueError "Invalid access token"), [])
    else
      match metaGet acct.metaInfo "instagram_business_account_id" with
      | none =>
        (.error (valueError
          "Instagram Business Account ID not found. Please reconnect your account."), [])
      | some igid =>
        if igid.isEmpty then
          (.error (valueError
            "Instagram Business Account ID not found. Please reconnect your account."), [])
        else
          let caption := buildCaption post.caption post.hashtags
          let body : PyResult AdapterResult × List ApiCall :=
            if !(isTruthy clip.mediaUrl) then
              (.error (valueError "Clip does not have a media URL"), [])
            else
              match igCreateContainerForClip env tok igid caption clip with
              | (.error e, calls) => (.error e, calls)
              | (.ok cid, calls) =>
                let pubCall := ApiCall.igPublishContainer tok igid cid
                match env.publishContainer tok igid cid with
                | .error e => (.error e, calls ++ [pubCall])
                | .ok mediaId =>
                  let detCall := ApiCall.igGetMediaDetails tok mediaId
                  match env.getMediaDetails tok mediaId with
                  | .error e => (.error e, calls ++ [pubCall, detCall])
                  | .ok permalink? =>
                    (.ok ⟨mediaId, some (permalink?.getD "")⟩,
                      calls ++ [pubCall, detCall])
          wrapErr igWrap body

/-! ## social_service.publish_post (the publish orchestrator) -/

/-- Database state seen by the orchestrator. -/
structure Db where
  posts : List SocialPost
  clips : List Clip
  accounts : List Account
  deriving Repr

/-- Embedding of get_post: first post with the given id. -/
def getPost (db : Db) (postId : Nat) : Option SocialPost :=
  db.posts.find? (fun p => p.id == postId)

/-- Embedding of clip_service.get_clip as used here: first clip with the
given id. -/
def getClip (db : Db) (clipId : Nat) : Option Clip :=
  db.clips.find? (fun cl => cl.id == clipId)

/-- Account query of publish_post: first active account of the post's
user on the post's platform. -/
def findActiveAccount (db : Db) (userId : Nat) (platform : String) : Option Account :=
  db.accounts.find? (fun a => a.userId == userId && a.platform == platform && a.isActive)

/-- Commit of a mutated post row back into the database. -/
def commitPost (db : Db) (p : SocialPost) : Db :=
  { db with posts := db.posts.map (fun q => if q.id == p.id then p else q) }

/-- Structured result dict returned by publish_post: the success shape
carries the stored platform_url, the failure shape the error text. -/
structure PublishResponse where
  success : Bool
  postId : Nat
  platformUrl : Option String
  error : Option String
  message : String
  deriving DecidableEq, Repr

/-- The three per-platform publish helpers as seen from publish_post
(call boundary of _publish_to_instagram, _publish_to_youtube and
_publish_to_tiktok): each returns the result dict or the raised
exception, plus its network calls. -/
structure AdapterEnv where
  runInstagram : SocialPost → Clip → Account → PyResult AdapterResult × List ApiCall
  runYoutube : SocialPost → Clip → Account → PyResult AdapterResult × List ApiCall
  runTiktok : SocialPost → Clip → Account → PyResult AdapterResult × List ApiCall

/-- Platform dispatch inside the try block of publish_post: Instagram,
YouTube and TikTok go to their helper; every other platform gets the
locally fabricated mock result with no network call. -/
def dispatchPlatform (env : AdapterEnv) (post : SocialPost) (clip : Clip)
    (acct : Account) : PyResult AdapterResult × List ApiCall :=
  match post.platform with
  | .instagram => env.runInstagram post clip acct
  | .youtube => env.runYoutube post clip acct
  | .tiktok => env.runTiktok post clip acct
  | _ =>
    (.ok ⟨"mock_" ++ toString post.id,
      some ("https://" ++ post.platform.value ++ ".com/post/mock_" ++ toString post.id)⟩,
      [])

/-- Embedding of publish_post: load the post (raising when absent or
already published), its clip and the active account (raising when
absent), persist the publishing status, dispatch to the platform helper,
and persist either the published outcome or the failed status with the
error message, returning the structured result dict in both cases. -/
def publish_post (env : AdapterEnv) (now : Int) (db : Db) (postId : Nat) :
    PyResult PublishResponse × Db × List ApiCall :=
  match getPost db postId with
  | none => (.error (valueError "Post not found"), db, [])
  | some post =>
    if post.status = .published then
      (.error (valueError "Post already published"), db, [])
    else
      match getClip db post.clipId with
      | none => (.error (valueError "Clip not found"), db, [])
      | some clip =>
        match findActiveAccount db post.userId post.platform.value with
        | none =>
          (.error (valueError ("No active " ++ post.platform.value ++ " account found")),
            db, [])
        | some acct =>
          let post1 := { post with status := .publishing }
          let db1 := commitPost db post1
          match dispatchPlatform env post1 clip acct with
          | (.ok r, calls) =>
            let post2 := { post1 with
              status := .published
              publishedAt := some now
              platformPostId := some r.platformPostId
              platformUrl := some (r.platformUrl.getD "")
              errorMessage := none }
            (.ok { success := true, postId := postId,
                   platformUrl := some (r.platformUrl.getD ""), error := none,
                   message := "Post published successfully" },
              commitPost db1 post2, calls)
          | (.error e, calls) =>
            let post2 := { post1 with status := .failed, errorMessage := some e.msg }
            (.ok { success := false, postId := postId, platformUrl := none,
                   error := some e.msg, message := "Failed to publish post" },
              commitPost db1 post2, calls)

/-! ## Shared lemmas -/

/-- Nonempty strings have isEmpty false. -/
theorem isEmpty_false_of_ne (s : String) (h : s ≠ "") : s.isEmpty = false :=
  Bool.eq_false_iff.mpr (fun he => h ((String.isEmpty_iff s).mp he))

/-- Chunk coverage: the byte ranges produced by the upload loop enumerate
exactly the interval from the start offset over the remaining bytes. -/
theorem chunkRanges_cover : ∀ r start : Nat,
    rangesBytes (tiktokChunkRanges start r) = List.range' start r := by
  intro r
  induction r using Nat.strong_induction_on with
  | _ r ih =>
    intro start
    match r with
    | 0 => simp [tiktokChunkRanges, rangesBytes]
    | rr + 1 =>
      rw [tiktokChunkRanges]
      have hc : min ttChunkSize (rr + 1) ≤ rr + 1 := Nat.min_le_right _ _
      have hc1 : 1 ≤ min ttChunkSize (rr + 1) := by
        have : 1 ≤ ttChunkSize := by simp [ttChunkSize]
        omega
      have hrec := ih (rr + 1 - min ttChunkSize (rr + 1)) (by omega)
        (start + min ttChunkSize (rr + 1))
      simp only [rangesBytes, List.flatMap_cons] at hrec ⊢
      rw [hrec, Nat.add_sub_cancel_left, List.range'_append_1]
      congr 1
      omega

/-- Trace of the upload loop when every chunk PUT succeeds: exactly one
chunk call per computed byte range. -/
theorem uploadChunksLoop_trace (put : Nat → Nat → Nat → PyResult Unit)
    (hok : ∀ a b t, put a b t = .ok ()) (total : Nat) :
    ∀ r start : Nat, (ttUploadChunksLoop put total start r).2 =
      (tiktokChunkRanges start r).map (fun p => ApiCall.ttUploadChunk p.1 p.2 total) := by
  intro r
  induction r using Nat.strong_induction_on with
  | _ r ih =>
    intro start
    match r with
    | 0 => simp [ttUploadChunksLoop, tiktokChunkRanges]
    | rr + 1 =>
      rw [ttUploadChunksLoop, tiktokChunkRanges]
      have hc1 : 1 ≤ min ttChunkSize (rr + 1) := by
        have : 1 ≤ ttChunkSize := by simp [ttChunkSize]
        omega
      rw [hok]
      simp only [List.map_cons]
      rw [ih (rr + 1 - min ttChunkSize (rr + 1)) (by omega)]

/-! ## Claim C10 -/

/-- Claim C10: token encryption round-trips.  For any cipher satisfying
Fernet's documented contract (decryption inverts encryption and
ciphertexts are non-empty, both stated for the non-empty plaintexts at
issue), decrypt_token inverts encrypt_token on every non-empty token,
and both functions map None and the empty string to None. -/
theorem c10_token_roundtrip (c : Cipher)
    (hinv : ∀ s : String, s ≠ "" → c.dec (c.enc s) = s)
    (hne : ∀ s : String, s ≠ "" → (c.enc s).isEmpty = false)
    (t : String) (ht : t ≠ "") :
    decrypt_token c (encrypt_token c (some t)) = some t ∧
    encrypt_token c none = none ∧ encrypt_token c (some "") = none ∧
    decrypt_token c none = none ∧ decrypt_token c (some "") = none := by
  refine ⟨?_, rfl, rfl, rfl, rfl⟩
  have hte : t.isEmpty = false := isEmpty_false_of_ne t ht
  simp [encrypt_token, decrypt_token, hte, hne t ht, hinv t ht]

/-- Witness for C10 at the identity cipher and the token "tok". -/
theorem c10_token_roundtrip_witness :
    decrypt_token ⟨id, id⟩ (encrypt_token ⟨id, id⟩ (some "tok")) = some "tok" ∧
    encrypt_token (⟨id, id⟩ : Cipher) none = none ∧
    encrypt_token (⟨id, id⟩ : Cipher) (some "") = none ∧
    decrypt_token (⟨id, id⟩ : Cipher) none = none ∧
    decrypt_token (⟨id, id⟩ : Cipher) (some "") = none :=
  c10_token_roundtrip ⟨id, id⟩ (fun _ _ => rfl)
    (fun s hs => isEmpty_false_of_ne s hs) "tok" (by decide)

/-! ## Claim C8 -/

/-- Claim C8: TikTok chunk declaration and upload coverage.  A file of at
most 64MB is declared as one chunk of its own size; a larger file is
declared with 10MB chunks and ceiling-divided chunk count (a 200MB file
declares 20 chunks); and the byte ranges sent by the upload loop cover
the interval from 0 to the file size exactly, each byte in exactly one
chunk, in order (so no gaps and no overlaps). -/
theorem c8_chunk_declaration (S : Nat) :
    (S ≤ 64 * 1024 * 1024 → tiktokChunkInfo S none = (S, 1)) ∧
    (S > 64 * 1024 * 1024 →
      tiktokChunkInfo S none = (ttChunkSize, S ⌈/⌉ ttChunkSize)) ∧
    rangesBytes (tiktokChunkRanges 0 S) = List.range' 0 S ∧
    (∀ put : Nat → Nat → Nat → PyResult Unit, (∀ a b t, put a b t = .ok ()) →
      (ttUploadChunksLoop put S 0 S).2 =
        (tiktokChunkRanges 0 S).map (fun p => ApiCall.ttUploadChunk p.1 p.2 S)) ∧
    tiktokChunkInfo (200 * 1024 * 1024) none = (10 * 1024 * 1024, 20) := by
  refine ⟨?_, ?_, chunkRanges_cover S 0, ?_, by norm_num [tiktokChunkInfo, ttChunkSize]⟩
  · intro h
    simp [tiktokChunkInfo, Nat.not_lt.mpr h]
  · intro h
    simp [tiktokChunkInfo, h, Nat.ceilDiv_eq_add_pred_div]
  · intro put hok
    exact uploadChunksLoop_trace put hok S S 0

/-- Witness for C8 at a 200MB file (above the threshold) and a 160-byte
file (below it), with an always-succeeding chunk PUT. -/
theorem c8_chunk_declaration_witness :
    tiktokChunkInfo (200 * 1024 * 1024) none = (ttChunkSize, (200 * 1024 * 1024) ⌈/⌉ ttChunkSize) ∧
    tiktokChunkInfo 160 none = (160, 1) ∧
    (ttUploadChunksLoop (fun _ _ _ => .ok ()) 160 0 160).2 =
      (tiktokChunkRanges 0 160).map (fun p => ApiCall.ttUploadChunk p.1 p.2 160) :=
  ⟨(c8_chunk_declaration (200 * 1024 * 1024)).2.1 (by norm_num),
   (c8_chunk_declaration 160).1 (by norm_num),
   (c8_chunk_declaration 160).2.2.2.1 (fun _ _ _ => .ok ()) (fun _ _ _ => rfl)⟩

/-! ## Claim C7 -/

/-- Status-poll answer that is ok but not terminal for the Instagram
container loop. -/
def igNonterminal (r : PyResult IgStatus) : Prop :=
  ∃ st, r = .ok st ∧ st.statusCode ≠ some "FINISHED" ∧ st.statusCode ≠ some "ERROR"

/-- Status-poll answer that is ok but not terminal for the TikTok
wait_for_publish loop. -/
def ttNonterminal (r : PyResult TtStatusData) : Prop :=
  ∃ sd, r = .ok sd ∧ sd.status ≠ some "PUBLISH_COMPLETE" ∧
    sd.status ≠ some "SEND_TO_USER_INBOX" ∧ sd.status ≠ some "FAILED"

/-- Instagram poll loop with only nonterminal answers: exactly one check
per configured attempt, then the timeout exception. -/
theorem igPollLoop_timeout (check : Nat → PyResult IgStatus)
    (f : Option String → String) (te : Exn) :
    ∀ n start, 1 ≤ n → (∀ i, i < n → igNonterminal (check (start + i))) →
      igPollLoop check f te start n = (.error te, n) := by
  intro n
  induction n with
  | zero => intro start h; omega
  | succ m ih =>
    intro start _ h
    obtain ⟨st, hc, hfin, herr⟩ := h 0 (by omega)
    rw [Nat.add_zero] at hc
    rw [igPollLoop, hc]
    simp only [if_neg hfin, if_neg herr]
    rcases m with _ | r
    · rfl
    · have hrec := ih (start + 1) (by omega) (fun i hi => by
        have := h (i + 1) (by omega)
        rwa [show start + (i + 1) = start + 1 + i by omega] at this)
      rw [if_neg (Nat.succ_ne_zero r)]
      simp [hrec]

/-- Instagram poll loop hitting a reported ERROR at attempt k (after
nonterminal answers): aborts right there with k + 1 checks and the
failure message, issuing no further polls. -/
theorem igPollLoop_error (check : Nat → PyResult IgStatus)
    (f : Option String → String) (te : Exn) :
    ∀ k n start st, k < n → (∀ i, i < k → igNonterminal (check (start + i))) →
      check (start + k) = .ok st → st.statusCode = some "ERROR" →
      igPollLoop check f te start n =
        (.error ⟨"InstagramGraphAPIError", f st.status⟩, k + 1) := by
  intro k
  induction k with
  | zero =>
    intro n start st hk _ hc herr
    rcases n with _ | m
    · omega
    · rw [Nat.add_zero] at hc
      rw [igPollLoop, hc]
      have hfin : st.statusCode ≠ some "FINISHED" := by rw [herr]; simp
      simp only [if_neg hfin, if_pos herr]
  | succ j ih =>
    intro n start st hk h hc herr
    rcases n with _ | m
    · omega
    · obtain ⟨st0, hc0, hfin0, herr0⟩ := h 0 (by omega)
      rw [Nat.add_zero] at hc0
      rw [igPollLoop, hc0]
      simp only [if_neg hfin0, if_neg herr0]
      rcases m with _ | r
      · omega
      · have hrec := ih (r + 1) (start + 1) st (by omega)
          (fun i hi => by
            have := h (i + 1) (by omega)
            rwa [show start + (i + 1) = start + 1 + i by omega] at this)
          (by rwa [show start + 1 + j = start + (j + 1) by omega])
          herr
        rw [if_neg (Nat.succ_ne_zero r)]
        simp [hrec]

/-- TikTok wait loop with only nonterminal answers: exactly one status
fetch per configured attempt, then the timeout error. -/
theorem waitForPublish_timeout (getStatus : Nat → PyResult TtStatusData)
    (maxA : Nat) (pid : String) :
    ∀ n start, (∀ i, i < n → ttNonterminal (getStatus (start + i))) →
      waitForPublish getStatus maxA pid start n =
        (.error ⟨"TikTokAPIError", ttTimeoutMsg maxA pid⟩, n) := by
  intro n
  induction n with
  | zero => intro start _; rfl
  | succ m ih =>
    intro start h
    obtain ⟨sd, hc, h1, h2, h3⟩ := h 0 (by omega)
    rw [Nat.add_zero] at hc
    rw [waitForPublish, hc]
    simp only [if_neg h1, if_neg h2, if_neg h3]
    have hrec := ih (start + 1) (fun i hi => by
      have := h (i + 1) (by omega)
      rwa [show start + (i + 1) = start + 1 + i by omega] at this)
    simp only [hrec]

/-- TikTok wait loop hitting a reported FAILED at attempt k (after
nonterminal answers): aborts right there with k + 1 fetches and the
failure reason, issuing no further polls. -/
theorem waitForPublish_failed (getStatus : Nat → PyResult TtStatusData)
    (maxA : Nat) (pid : String) :
    ∀ k n start sd, k < n → (∀ i, i < k → ttNonterminal (getStatus (start + i))) →
      getStatus (start + k) = .ok sd → sd.status = some "FAILED" →
      waitForPublish getStatus maxA pid start n =
        (.error ⟨"TikTokAPIError",
          "TikTok publish failed: " ++ (sd.failReason.getD "Unknown")⟩, k + 1) := by
  intro k
  induction k with
  | zero =>
    intro n start sd hk _ hc hf
    rcases n with _ | m
    · omega
    · rw [Nat.add_zero] at hc
      rw [waitForPublish, hc]
      have h1 : sd.status ≠ some "PUBLISH_COMPLETE" := by rw [hf]; simp
      have h2 : sd.status ≠ some "SEND_TO_USER_INBOX" := by rw [hf]; simp
      simp only [if_neg h1, if_neg h2, if_pos hf]
  | succ j ih =>
    intro n start sd hk h hc hf
    rcases n with _ | m
    · omega
    · obtain ⟨sd0, hc0, h1, h2, h3⟩ := h 0 (by omega)
      rw [Nat.add_zero] at hc0
      rw [waitForPublish, hc0]
      simp only [if_neg h1, if_neg h2, if_neg h3]
      have hrec := ih m (start + 1) sd (by omega)
        (fun i hi => by
          have := h (i + 1) (by omega)
          rwa [show start + (i + 1) = start + 1 + i by omega] at this)
        (by rwa [show start + 1 + j = start + (j + 1) by omega])
        hf
      simp only [hrec]

/-- Claim C7: both bounded status-poll loops (the TikTok wait_for_publish
loop and the Instagram container-status loop) perform exactly their
configured number of status checks and then raise a timeout error when
the remote job never reports a terminal state, and abort immediately
(with no further polls) when a terminal failure state (ERROR for
Instagram, FAILED for TikTok) is reported. -/
theorem c7_bounded_polling (check : Nat → PyResult IgStatus)
    (f : Option String → String) (te : Exn)
    (getStatus : Nat → PyResult TtStatusData) (maxA : Nat) (pid : String) :
    (∀ n, 1 ≤ n → (∀ i, i < n → igNonterminal (check i)) →
      igPollLoop check f te 0 n = (.error te, n)) ∧
    (∀ n k st, k < n → (∀ i, i < k → igNonterminal (check i)) →
      check k = .ok st → st.statusCode = some "ERROR" →
      igPollLoop check f te 0 n =
        (.error ⟨"InstagramGraphAPIError", f st.status⟩, k + 1)) ∧
    (∀ n, (∀ i, i < n → ttNonterminal (getStatus i)) →
      waitForPublish getStatus maxA pid 0 n =
        (.error ⟨"TikTokAPIError", ttTimeoutMsg maxA pid⟩, n)) ∧
    (∀ n k sd, k < n → (∀ i, i < k → ttNonterminal (getStatus i)) →
      getStatus k = .ok sd → sd.status = some "FAILED" →
      waitForPublish getStatus maxA pid 0 n =
        (.error ⟨"TikTokAPIError",
          "TikTok publish failed: " ++ (sd.failReason.getD "Unknown")⟩, k + 1)) := by
  refine ⟨?_, ?_, ?_, ?_⟩
  · intro n hn h
    exact igPollLoop_timeout check f te n 0 hn (fun i hi => by simpa using h i hi)
  · intro n k st hk h hc herr
    exact igPollLoop_error check f te k n 0 st hk
      (fun i hi => by simpa using h i hi) (by simpa using hc) herr
  · intro n h
    exact waitForPublish_timeout getStatus maxA pid n 0 (fun i hi => by simpa using h i hi)
  · intro n k sd hk h hc hf
    exact waitForPublish_failed getStatus maxA pid k n 0 sd hk
      (fun i hi => by simpa using h i hi) (by simpa using hc) hf

/-- Witness for C7: a never-terminal Instagram oracle polled 30 times
then timing out, a never-terminal TikTok oracle polled 30 times then
timing out, and a TikTok job reporting FAILED at the third attempt,
aborted after exactly 3 fetches. -/
theorem c7_bounded_polling_witness :
    igPollLoop (fun _ => .ok ⟨some "IN_PROGRESS", none⟩)
        (fun s => "Video processing failed: " ++ optStr s)
        ⟨"InstagramGraphAPIError", "Video processing timeout"⟩ 0 30 =
      (.error ⟨"InstagramGraphAPIError", "Video processing timeout"⟩, 30) ∧
    waitForPublish (fun _ => .ok ⟨some "PROCESSING_DOWNLOAD", none, []⟩) 30 "pub1" 0 30 =
      (.error ⟨"TikTokAPIError", ttTimeoutMsg 30 "pub1"⟩, 30) ∧
    waitForPublish
        (fun i => if i = 2 then .ok ⟨some "FAILED", some "boom", []⟩
          else .ok ⟨some "PROCESSING_UPLOAD", none, []⟩) 30 "pub2" 0 30 =
      (.error ⟨"TikTokAPIError", "TikTok publish failed: boom"⟩, 3) := by
  refine ⟨?_, ?_, ?_⟩
  · exact (c7_bounded_polling (fun _ => .ok ⟨some "IN_PROGRESS", none⟩)
      (fun s => "Video processing failed: " ++ optStr s)
      ⟨"InstagramGraphAPIError", "Video processing timeout"⟩
      (fun _ => .ok ⟨none, none, []⟩) 30 "pub1").1 30 (by norm_num)
      (fun i _ => ⟨⟨some "IN_PROGRESS", none⟩, rfl, by decide, by decide⟩)
  · exact (c7_bounded_polling (fun _ => .ok ⟨none, none⟩) optStr ⟨"E", "t"⟩
      (fun _ => .ok ⟨some "PROCESSING_DOWNLOAD", none, []⟩) 30 "pub1").2.2.1 30
      (fun i _ => ⟨⟨some "PROCESSING_DOWNLOAD", none, []⟩, rfl, by decide, by decide, by decide⟩)
  · exact (c7_bounded_polling (fun _ => .ok ⟨none, none⟩) optStr ⟨"E", "t"⟩
      (fun i => if i = 2 then .ok ⟨some "FAILED", some "boom", []⟩
        else .ok ⟨some "PROCESSING_UPLOAD", none, []⟩) 30 "pub2").2.2.2 30 2
      ⟨some "FAILED", some "boom", []⟩ (by norm_num)
      (fun i hi => ⟨⟨some "PROCESSING_UPLOAD", none, []⟩,
        by have : i ≠ 2 := by omega
           simp [this], by decide, by decide, by decide⟩)
      (by simp) (by decide)

/-! ## Claims C1, C2, C5: the orchestrator -/

/-- Adapter environment whose helpers all raise, used as a concrete
environment where helper behavior is irrelevant or a failure is
wanted. -/
def noopAdapterEnv : AdapterEnv :=
  ⟨fun _ _ _ => (.error ⟨"ValueError", "ig helper"⟩, []),
   fun _ _ _ => (.error ⟨"ValueError", "yt helper"⟩, []),
   fun _ _ _ => (.error ⟨"ValueError", "tt helper"⟩, [])⟩

/-- Fixture for C1: an already published Instagram post. -/
def c1Post : SocialPost :=
  ⟨1, 7, 2, .instagram, none, none, none, none, some 50, .published,
    some "ig9", some "https://www.instagram.com/p/x", none⟩

/-- Fixture clip for C1. -/
def c1Clip : Clip := ⟨2, some "http://media/a.jpg", some "image", none, [], [], none, none, none, none⟩

/-- Fixture account for C1. -/
def c1Acct : Account :=
  ⟨5, 7, "instagram", "u", some "Xtok", none, none, true,
    [("instagram_business_account_id", "ig1")]⟩

/-- Fixture database for C1. -/
def c1Db : Db := ⟨[c1Post], [c1Clip], [c1Acct]⟩

/-- Counterexample for C1: publishing an already published post does not
return a no-op success result; it raises ValueError (with no network call
and the database unchanged). -/
theorem c1_counterexample :
    publish_post noopAdapterEnv 100 c1Db 1 =
      (.error (valueError "Post already published"), c1Db, []) := rfl

/-- Claim C1 (amended): for every post whose status is already published,
publish_post raises ValueError with the message about the post being
already published, performs zero network calls and leaves the database
(hence the post's persisted fields) unchanged; it does not return a no-op
success result. -/
theorem c1_published_guard (env : AdapterEnv) (now : Int) (db : Db) (postId : Nat)
    (post : SocialPost) (h1 : getPost db postId = some post)
    (h2 : post.status = .published) :
    publish_post env now db postId =
      (.error (valueError "Post already published"), db, []) := by
  simp [publish_post, h1, h2]

/-- Witness for C1 at the concrete fixture database. -/
theorem c1_published_guard_witness :
    getPost c1Db 1 = some c1Post ∧ c1Post.status = .published ∧
    publish_post noopAdapterEnv 100 c1Db 1 =
      (.error (valueError "Post already published"), c1Db, []) :=
  ⟨rfl, rfl, c1_published_guard noopAdapterEnv 100 c1Db 1 c1Post rfl rfl⟩

/-- Counterexample for C2: publish_post on an unknown post id lets a raw
ValueError escape to the caller instead of returning a structured
result. -/
theorem c2_counterexample :
    publish_post noopAdapterEnv 0 ⟨[], [], []⟩ 42 =
      (.error (valueError "Post not found"), ⟨[], [], []⟩, []) := rfl

/-- Claim C2 (amended): once the precondition checks pass (post found and
not already published, clip found, active account found), publish_post
always returns a structured result and never lets an exception escape;
and whenever the dispatched platform helper raises, the post is persisted
with status failed and the human-readable message of the raised error,
and the returned structured result carries success false with that error.
The precondition failures themselves (post not found, post already
published, clip not found, no active account) do raise ValueError to the
caller, as the counterexample shows. -/
theorem c2_structured_result (env : AdapterEnv) (now : Int) (db : Db) (postId : Nat)
    (post : SocialPost) (clip : Clip) (acct : Account)
    (h1 : getPost db postId = some post) (h2 : post.status ≠ .published)
    (h3 : getClip db post.clipId = some clip)
    (h4 : findActiveAccount db post.userId post.platform.value = some acct) :
    (∃ resp, (publish_post env now db postId).1 = .ok resp) ∧
    (∀ e calls,
      dispatchPlatform env { post with status := .publishing } clip acct = (.error e, calls) →
      publish_post env now db postId =
        (.ok { success := false, postId := postId, platformUrl := none,
               error := some e.msg, message := "Failed to publish post" },
         commitPost (commitPost db { post with status := .publishing })
           { post with status := .failed, errorMessage := some e.msg },
         calls)) := by
  constructor
  · rcases hd : dispatchPlatform env { post with status := .publishing } clip acct with ⟨res, calls⟩
    rcases res with e | r
    · exact ⟨{ success := false, postId := postId, platformUrl := none,
               error := some e.msg, message := "Failed to publish post" },
        by simp [publish_post, h1, h2, h3, h4, hd]⟩
    · exact ⟨{ success := true, postId := postId,
               platformUrl := some (r.platformUrl.getD ""), error := none,
               message := "Post published successfully" },
        by simp [publish_post, h1, h2, h3, h4, hd]⟩
  · intro e calls hd
    simp [publish_post, h1, h2, h3, h4, hd]

/-- Fixture post for C2's witness: a draft Instagram post. -/
def c2Post : SocialPost := ⟨1, 7, 2, .instagram, none, none, none, none, none, .draft, none, none, none⟩

/-- Fixture clip for C2's witness. -/
def c2Clip : Clip := ⟨2, some "http://media/a.jpg", some "image", none, [], [], none, none, none, none⟩

/-- Fixture account for C2's witness. -/
def c2Acct : Account := ⟨5, 7, "instagram", "u", some "Xtok", none, none, true, []⟩

/-- Fixture database for C2's witness. -/
def c2Db : Db := ⟨[c2Post], [c2Clip], [c2Acct]⟩

/-- Witness for C2 at the concrete fixture database, with the helper
environment that raises from every helper. -/
theorem c2_structured_result_witness :
    getPost c2Db 1 = some c2Post ∧ c2Post.status ≠ .published ∧
    getClip c2Db c2Post.clipId = some c2Clip ∧
    findActiveAccount c2Db c2Post.userId c2Post.platform.value = some c2Acct ∧
    (∃ resp, (publish_post noopAdapterEnv 100 c2Db 1).1 = .ok resp) ∧
    publish_post noopAdapterEnv 100 c2Db 1 =
      (.ok { success := false, postId := 1, platformUrl := none,
             error := some "ig helper", message := "Failed to publish post" },
       commitPost (commitPost c2Db { c2Post with status := .publishing })
         { c2Post with status := .failed, errorMessage := some "ig helper" },
       []) := by
  have h := c2_structured_result noopAdapterEnv 100 c2Db 1 c2Post c2Clip c2Acct
    rfl (by decide) rfl rfl
  exact ⟨rfl, by decide, rfl, rfl, h.1, h.2 ⟨"ValueError", "ig helper"⟩ [] rfl⟩

/-- Fixture post for C5: a draft LinkedIn post. -/
def c5Post : SocialPost := ⟨1, 7, 2, .linkedin, none, none, none, none, none, .draft, none, none, none⟩

/-- Fixture clip for C5. -/
def c5Clip : Clip := ⟨2, some "http://media/a.mp4", some "video", none, [], [], none, none, none, none⟩

/-- Fixture LinkedIn account for C5. -/
def c5Acct : Account := ⟨5, 7, "linkedin", "u", some "Xtok", none, none, true, []⟩

/-- Fixture database for C5. -/
def c5Db : Db := ⟨[c5Post], [c5Clip], [c5Acct]⟩

/-- Counterexample for C5: a LinkedIn post is not published through the
LinkedIn adapter; publish_post reports success with the locally
fabricated mock id and URL while issuing zero network calls, and persists
the fabricated values. -/
theorem c5_counterexample :
    (publish_post noopAdapterEnv 100 c5Db 1).1 =
      .ok { success := true, postId := 1,
            platformUrl := some "https://linkedin.com/post/mock_1", error := none,
            message := "Post published successfully" } ∧
    (publish_post noopAdapterEnv 100 c5Db 1).2.2 = [] ∧
    getPost (publish_post noopAdapterEnv 100 c5Db 1).2.1 1 =
      some { c5Post with
              status := .published, publishedAt := some 100,
              platformPostId := some "mock_1",
              platformUrl := some "https://linkedin.com/post/mock_1",
              errorMessage := none } :=
  ⟨rfl, rfl, rfl⟩

/-- Claim C5 (amended): the orchestrator dispatches Instagram, YouTube
and TikTok posts to the matching platform helper (the publish network
calls are exactly the helper's calls), but a LinkedIn post falls into the
mock branch: publish_post fabricates the platform post id mock_(post id)
and a mock URL locally, persists them as the published outcome, and makes
no network call at all; the LinkedIn adapter is never invoked. -/
theorem c5_dispatch (env : AdapterEnv) (now : Int) (db : Db) (postId : Nat)
    (post : SocialPost) (clip : Clip) (acct : Account)
    (h1 : getPost db postId = some post) (h2 : post.status ≠ .published)
    (h3 : getClip db post.clipId = some clip)
    (h4 : findActiveAccount db post.userId post.platform.value = some acct) :
    (post.platform = .linkedin →
      publish_post env now db postId =
        (.ok { success := true, postId := postId,
               platformUrl := some ("https://" ++ post.platform.value ++
                 ".com/post/mock_" ++ toString post.id),
               error := none, message := "Post published successfully" },
         commitPost (commitPost db { post with status := .publishing })
           { post with
              status := .published, publishedAt := some now,
              platformPostId := some ("mock_" ++ toString post.id),
              platformUrl := some ("https://" ++ post.platform.value ++
                ".com/post/mock_" ++ toString post.id),
              errorMessage := none },
         [])) ∧
    (post.platform = .instagram →
      (publish_post env now db postId).2.2 =
        (env.runInstagram { post with status := .publishing } clip acct).2) ∧
    (post.platform = .youtube →
      (publish_post env now db postId).2.2 =
        (env.runYoutube { post with status := .publishing } clip acct).2) ∧
    (post.platform = .tiktok →
      (publish_post env now db postId).2.2 =
        (env.runTiktok { post with status := .publishing } clip acct).2) := by
  refine ⟨?_, ?_, ?_, ?_⟩
  · intro hp
    rw [hp] at h4
    simp [publish_post, h1, h2, h3, h4, dispatchPlatform, hp]
  · intro hp
    have hm : dispatchPlatform env { post with status := .publishing } clip acct =
        env.runInstagram { post with status := .publishing } clip acct := by
      simp [dispatchPlatform, hp]
    rcases hr : env.runInstagram { post with status := .publishing } clip acct with ⟨res, calls⟩
    rcases res with e | r <;>
      simp [publish_post, h1, h2, h3, h4, hm, hr]
  · intro hp
    have hm : dispatchPlatform env { post with status := .publishing } clip acct =
        env.runYoutube { post with status := .publishing } clip acct := by
      simp [dispatchPlatform, hp]
    rcases hr : env.runYoutube { post with status := .publishing } clip acct with ⟨res, calls⟩
    rcases res with e | r <;>
      simp [publish_post, h1, h2, h3, h4, hm, hr]
  · intro hp
    have hm : dispatchPlatform env { post with status := .publishing } clip acct =
        env.runTiktok { post with status := .publishing } clip acct := by
      simp [dispatchPlatform, hp]
    rcases hr : env.runTiktok { post with status := .publishing } clip acct with ⟨res, calls⟩
    rcases res with e | r <;>
      simp [publish_post, h1, h2, h3, h4, hm, hr]

/-- Witness for C5 at the concrete LinkedIn fixture database. -/
theorem c5_dispatch_witness :
    getPost c5Db 1 = some c5Post ∧ c5Post.status ≠ .published ∧
    getClip c5Db c5Post.clipId = some c5Clip ∧
    findActiveAccount c5Db c5Post.userId c5Post.platform.value = some c5Acct ∧
    c5Post.platform = .linkedin ∧
    publish_post noopAdapterEnv 100 c5Db 1 =
      (.ok { success := true, postId := 1,
             platformUrl := some ("https://" ++ c5Post.platform.value ++
               ".com/post/mock_" ++ toString c5Post.id),
             error := none, message := "Post published successfully" },
       commitPost (commitPost c5Db { c5Post with status := .publishing })
         { c5Post with
            status := .published, publishedAt := some 100,
            platformPostId := some ("mock_" ++ toString c5Post.id),
            platformUrl := some ("https://" ++ c5Post.platform.value ++
              ".com/post/mock_" ++ toString c5Post.id),
            errorMessage := none },
       []) :=
  ⟨rfl, by decide, rfl, rfl, rfl,
    (c5_dispatch noopAdapterEnv 100 c5Db 1 c5Post c5Clip c5Acct
      rfl (by decide) rfl rfl).1 rfl⟩

/-! ## Claims C4, C9: token storage and the refresh buffer -/

/-- Lookup after dictionary assignment yields the assigned value. -/
theorem metaGet_metaSet (m : StrMap) (k v : String) :
    metaGet (metaSet m k v) k = some v := by
  simp [metaGet, metaSet]

/-- Concrete cipher used by witnesses and counterexamples: prepend one
marker character to encrypt, drop it to decrypt. -/
def xCipher : Cipher := ⟨fun s => "X" ++ s, fun s => s.drop 1⟩

/-- Fixture token data for C4. -/
def c4TokenData : TokenData := ⟨some "usertok", none, some 3600⟩

/-- Fixture Instagram user_info for C4, as built by
InstagramOAuth.get_user_info: it carries the page access token in
plaintext under the access_token key. -/
def c4UserInfo : StrMap :=
  [("id", "ig1"), ("username", "alice"), ("access_token", "pagetok"),
   ("facebook_page_id", "pg1"), ("instagram_business_account_id", "ig1")]

/-- Counterexample for C4: save_oauth_tokens persists the meta_info map
verbatim, so the Instagram page access token is stored in plaintext (the
stored value is the input token itself, not its encryption). -/
theorem c4_counterexample :
    metaGet (saveOauthTokens xCipher 0 7 "instagram" c4TokenData c4UserInfo none).metaInfo
        "access_token" = some "pagetok" ∧
    encrypt_token xCipher (some "pagetok") = some "Xpagetok" ∧
    (some "pagetok" : Option String) ≠ some "Xpagetok" :=
  ⟨rfl, rfl, by decide⟩

/-- Claim C4 (amended): save_oauth_tokens stores the provider access and
refresh tokens encrypted in the dedicated columns, but the metadata map
is persisted verbatim, so any token inside user_info (the Instagram
page-level token in particular) is stored in plaintext; likewise
refresh_account_token writes the re-derived Instagram page token into
meta_info in plaintext. -/
theorem c4_token_storage (c : Cipher) (now : Int) (userId : Nat) (platform : String)
    (td : TokenData) (ui : StrMap) (existing : Option Account) :
    ((saveOauthTokens c now userId platform td ui existing).accessTokenEnc =
        encrypt_token c td.accessToken ∧
      (saveOauthTokens c now userId platform td ui existing).refreshTokenEnc =
        encrypt_token c td.refreshToken ∧
      (saveOauthTokens c now userId platform td ui existing).metaInfo = ui) ∧
    (∀ (env : OAuthEnv) (acct : Account) (tok : String) (td2 : TokenData)
        (pid pt : String),
      acct.platform = "instagram" →
      decrypt_token c acct.accessTokenEnc = some tok → tok ≠ "" →
      env.refreshAccessToken "instagram" tok = .ok td2 →
      metaGet acct.metaInfo "facebook_page_id" = some pid → pid ≠ "" →
      env.refreshPageAccessToken td2.accessToken pid = .ok (some pt) →
      metaGet (refreshAccountToken env c now acct).persisted.metaInfo "access_token" =
        some pt) := by
  constructor
  · rcases existing with _ | acct <;> simp [saveOauthTokens]
  · intro env acct tok td2 pid pt hi hdec htne hrf hpid hpne hpt
    simp [refreshAccountToken, hi, hdec, isEmpty_false_of_ne tok htne, hrf, hpid,
      isEmpty_false_of_ne pid hpne, hpt, metaGet_metaSet]

/-- Fixture OAuth environment for C4's witness: token refresh returns a
fresh token, the page-token fetch returns a fresh page token. -/
def c4OAuthEnv : OAuthEnv :=
  ⟨fun _ _ => .ok ⟨some "newtok", none, some 3600⟩, fun _ _ => .ok (some "newpage")⟩

/-- Fixture Instagram account for C4's witness. -/
def c4Acct : Account :=
  ⟨5, 7, "instagram", "alice", some "Xusertok", none, some 1000, true,
    [("facebook_page_id", "pg1"), ("access_token", "oldpage")]⟩

/-- Witness for C4 at the concrete fixtures. -/
theorem c4_token_storage_witness :
    ((saveOauthTokens xCipher 0 7 "instagram" c4TokenData c4UserInfo none).accessTokenEnc =
        encrypt_token xCipher c4TokenData.accessToken ∧
      (saveOauthTokens xCipher 0 7 "instagram" c4TokenData c4UserInfo none).refreshTokenEnc =
        encrypt_token xCipher c4TokenData.refreshToken ∧
      (saveOauthTokens xCipher 0 7 "instagram" c4TokenData c4UserInfo none).metaInfo =
        c4UserInfo) ∧
    metaGet (refreshAccountToken c4OAuthEnv xCipher 0 c4Acct).persisted.metaInfo
        "access_token" = some "newpage" := by
  have h := c4_token_storage xCipher 0 7 "instagram" c4TokenData c4UserInfo none
  exact ⟨h.1, h.2 c4OAuthEnv c4Acct "usertok" ⟨some "newtok", none, some 3600⟩
    "pg1" "newpage" rfl rfl (by decide) rfl rfl (by decide) rfl⟩

/-- Fixture Instagram account for C9's counterexample: expiry far in the
future, a plaintext page token in meta_info, and an encrypted user
token. -/
def c9Acct : Account :=
  ⟨5, 7, "instagram", "alice", some "Xusertok", none, some 1000000000, true,
    [("access_token", "pagetok")]⟩

/-- Fixture OAuth environment for C9's counterexample (never consulted,
since no refresh is due). -/
def c9Env : OAuthEnv :=
  ⟨fun _ _ => .error ⟨"E", "unused"⟩, fun _ _ => .error ⟨"E", "unused"⟩⟩

/-- Counterexample for C9: outside the buffer the vault does not always
decrypt and return the stored token; for an Instagram account holding a
page token in meta_info it returns that plaintext page token instead of
the decryption of the stored ciphertext. -/
theorem c9_counterexample :
    getValidAccessToken c9Env xCipher 0 c9Acct = ⟨.ok (some "pagetok"), false, c9Acct, []⟩ ∧
    decrypt_token xCipher c9Acct.accessTokenEnc = some "usertok" ∧
    (some "pagetok" : Option String) ≠ some "usertok" :=
  ⟨rfl, rfl, by decide⟩

/-- Claim C9 (amended): for every account with a non-null expiry, the
vault refreshes exactly when now plus the buffer reaches the expiry,
where the buffer is 7 days (604800 seconds) for Instagram and 5 minutes
(300 seconds) otherwise.  When no refresh is due, a non-Instagram account
gets the decryption of the stored token with no network call; an
Instagram account instead gets the plaintext page token from meta_info
when one is present.  An Instagram refresh inside the buffer also
re-derives the page token stored in meta_info. -/
theorem c9_valid_token (env : OAuthEnv) (c : Cipher) (now : Int) (acct : Account)
    (T : Int) (hT : acct.tokenExpiresAt = some T) :
    ((getValidAccessToken env c now acct).refreshAttempted = true ↔
      now + tokenBuffer acct.platform ≥ T) ∧
    (acct.platform = "instagram" → tokenBuffer acct.platform = 604800) ∧
    (acct.platform ≠ "instagram" → tokenBuffer acct.platform = 300) ∧
    (¬ (now + tokenBuffer acct.platform ≥ T) → acct.platform ≠ "instagram" →
      getValidAccessToken env c now acct =
        ⟨.ok (decrypt_token c acct.accessTokenEnc), false, acct, []⟩) ∧
    (∀ (tok : String) (td : TokenData) (pid pt : String),
      acct.platform = "instagram" → now + tokenBuffer acct.platform ≥ T →
      decrypt_token c acct.accessTokenEnc = some tok → tok ≠ "" →
      env.refreshAccessToken "instagram" tok = .ok td →
      metaGet acct.metaInfo "facebook_page_id" = some pid → pid ≠ "" →
      env.refreshPageAccessToken td.accessToken pid = .ok (some pt) →
      metaGet (getValidAccessToken env c now acct).persisted.metaInfo "access_token" =
          some pt ∧
        (getValidAccessToken env c now acct).refreshAttempted = true) := by
  refine ⟨?_, ?_, ?_, ?_, ?_⟩
  · by_cases hge : now + tokenBuffer acct.platform ≥ T
    · simp only [getValidAccessToken, hT, if_pos hge]
      rcases hres : (refreshAccountToken env c now acct).result with e | a
      · simp [hres, hge]
      · simp only [hres]
        by_cases hi : a.platform = "instagram"
        · simp only [if_pos hi]
          rcases hm : metaGet a.metaInfo "access_token" with _ | pt
          · simp [hm, hge]
          · by_cases hpe : pt.isEmpty <;> simp [hm, hpe, hge]
        · simp [hi, hge]
    · simp only [getValidAccessToken, hT, if_neg hge]
      by_cases hi : acct.platform = "instagram"
      · simp only [if_pos hi]
        rcases hm : metaGet acct.metaInfo "access_token" with _ | pt
        · simp [hm, hge]
        · by_cases hpe : pt.isEmpty <;> simp [hm, hpe, hge]
      · simp [hi, hge]
  · intro hi
    simp [tokenBuffer, hi]
  · intro hi
    simp [tokenBuffer, hi]
  · intro hlt hni
    simp [getValidAccessToken, hT, hlt, hni]
  · intro tok td pid pt hi hge hdec htne hrf hpid hpne hpt
    have hro : refreshAccountToken env c now acct =
        ⟨.ok { acct with
                accessTokenEnc := encrypt_token c td.accessToken
                tokenExpiresAt := expiryFrom now td.expiresIn acct.tokenExpiresAt
                metaInfo := metaSet acct.metaInfo "access_token" pt },
          { acct with
            accessTokenEnc := encrypt_token c td.accessToken
            tokenExpiresAt := expiryFrom now td.expiresIn acct.tokenExpiresAt
            metaInfo := metaSet acct.metaInfo "access_token" pt },
          [.oauthTokenRefresh "instagram", .oauthPageTokenFetch pid]⟩ := by
      simp [refreshAccountToken, hi, hdec, isEmpty_false_of_ne tok htne, hrf, hpid,
        isEmpty_false_of_ne pid hpne, hpt]
    simp only [getValidAccessToken, hT, if_pos hge, hro]
    by_cases hpe : pt.isEmpty <;>
      simp [hi, metaGet_metaSet, hpe]

/-- Fixture YouTube account for C9's witness: far from expiry. -/
def c9YtAcct : Account :=
  ⟨6, 7, "youtube", "bob", some "Xyttok", some "Xrt", some 1000000000, true, []⟩

/-- Witness for C9 at concrete accounts: the refresh-decision iff at the
far-from-expiry Instagram account, the plain decrypt-and-return outcome
at a far-from-expiry YouTube account, and the page-token re-derivation
at an Instagram account inside the 7-day buffer. -/
theorem c9_valid_token_witness :
    ((getValidAccessToken c9Env xCipher 0 c9Acct).refreshAttempted = true ↔
      (0 : Int) + tokenBuffer c9Acct.platform ≥ 1000000000) ∧
    getValidAccessToken c9Env xCipher 0 c9YtAcct =
      ⟨.ok (some "yttok"), false, c9YtAcct, []⟩ ∧
    metaGet (getValidAccessToken c4OAuthEnv xCipher 0 c4Acct).persisted.metaInfo
        "access_token" = some "newpage" ∧
    (getValidAccessToken c4OAuthEnv xCipher 0 c4Acct).refreshAttempted = true := by
  have h5 := (c9_valid_token c4OAuthEnv xCipher 0 c4Acct 1000 rfl).2.2.2.2
    "usertok" ⟨some "newtok", none, some 3600⟩ "pg1" "newpage"
    rfl (by decide) rfl (by decide) rfl rfl (by decide) rfl
  refine ⟨(c9_valid_token c9Env xCipher 0 c9Acct 1000000000 rfl).1, ?_, h5.1, h5.2⟩
  have h4 := (c9_valid_token c9Env xCipher 0 c9YtAcct 1000000000 rfl).2.2.2.1
    (by decide) (by decide)
  exact h4.trans rfl

/-! ## Claims C3, C6: trace shape of the publish helpers -/

/-- Calls that the Instagram publish helper may emit: Instagram Graph API
requests carrying exactly the given bearer token, and nothing else (in
particular no oauth token refresh). -/
def allowedIgCall (tokOpt : Option String) : ApiCall → Prop
  | .igCreateImageContainer t _ _ _ => some t = tokOpt
  | .igCreateVideoContainer t _ _ _ _ => some t = tokOpt
  | .igCheckContainerStatus t _ => some t = tokOpt
  | .igCreateCarouselContainer t _ _ _ => some t = tokOpt
  | .igCreateStoryContainer t _ _ _ => some t = tokOpt
  | .igPublishContainer t _ _ => some t = tokOpt
  | .igGetMediaDetails t _ => some t = tokOpt
  | _ => False

/-- Calls that the TikTok publish helper may emit: TikTok open API
requests carrying exactly the given bearer token, plus tokenless chunk
PUTs to the upload URL; no creator-info query and no oauth token
refresh. -/
def allowedTtCall (tokOpt : Option String) : ApiCall → Prop
  | .ttInboxVideoInitUrl t _ => some t = tokOpt
  | .ttInboxVideoInitFile t _ _ _ => some t = tokOpt
  | .ttContentInitPhoto t _ _ _ _ => some t = tokOpt
  | .ttUploadChunk _ _ _ => True
  | .ttStatusFetch t _ => some t = tokOpt
  | _ => False

/-- Carousel child containers emit only token-carrying Instagram calls. -/
theorem igCarouselChildren_shape (env : IgEnv) (tok igid : String) (types : List String) :
    ∀ (urls : List String) (i : Nat) (call : ApiCall),
      call ∈ (igCarouselChildren env tok igid types urls i).2 →
      allowedIgCall (some tok) call := by
  intro urls
  induction urls with
  | nil => intro i call h; simp [igCarouselChildren] at h
  | cons url rest ih =>
    intro i call h
    rw [igCarouselChildren] at h
    simp only [] at h
    split at h
    · split at h
      · simp only [List.mem_cons, List.not_mem_nil, or_false] at h
        subst h
        simp [allowedIgCall]
      · simp only [List.mem_cons] at h
        rcases h with rfl | h
        · simp [allowedIgCall]
        · exact ih (i + 1) call h
    · split at h
      · split at h
        · simp only [List.mem_cons, List.not_mem_nil, or_false] at h
          subst h
          simp [allowedIgCall]
        · split at h
          · simp only [List.mem_cons, List.mem_replicate] at h
            rcases h with rfl | ⟨_, rfl⟩ <;> simp [allowedIgCall]
          · simp only [List.mem_cons, List.mem_append, List.mem_replicate] at h
            rcases h with rfl | ⟨_, rfl⟩ | h
            · simp [allowedIgCall]
            · simp [allowedIgCall]
            · exact ih (i + 1) call h
      · simp at h

/-- Container creation emits only token-carrying Instagram calls. -/
theorem igCreateContainerForClip_shape (env : IgEnv) (tok igid caption : String)
    (clip : Clip) :
    ∀ call : ApiCall, call ∈ (igCreateContainerForClip env tok igid caption clip).2 →
      allowedIgCall (some tok) call := by
  intro call h
  rw [igCreateContainerForClip] at h
  simp only [] at h
  split at h
  · simp only [List.mem_cons, List.not_mem_nil, or_false] at h
    subst h
    simp [allowedIgCall]
  · split at h
    · -- video or reel
      split at h
      · simp only [List.mem_cons, List.not_mem_nil, or_false] at h
        subst h
        simp [allowedIgCall]
      · split at h
        · simp only [List.mem_cons, List.mem_replicate] at h
          rcases h with rfl | ⟨_, rfl⟩ <;> simp [allowedIgCall]
        · simp only [List.mem_cons, List.mem_replicate] at h
          rcases h with rfl | ⟨_, rfl⟩ <;> simp [allowedIgCall]
    · split at h
      · -- carousel
        split at h
        · simp at h
        · split at h
          · simp at h
          · rcases hcc : igCarouselChildren env tok igid clip.carouselMediaTypes
                clip.carouselMediaUrls 0 with ⟨res, calls⟩
            rw [hcc] at h
            have hsub : ∀ x ∈ calls, allowedIgCall (some tok) x := fun x hx =>
              igCarouselChildren_shape env tok igid clip.carouselMediaTypes
                clip.carouselMediaUrls 0 x (by rw [hcc]; exact hx)
            rcases res with e | children
            · simp only [] at h
              exact hsub call h
            · simp only [] at h
              split at h
              · simp only [List.mem_append, List.mem_cons, List.not_mem_nil,
                  or_false] at h
                rcases h with h | rfl
                · exact hsub call h
                · simp [allowedIgCall]
              · simp only [List.mem_append, List.mem_cons, List.not_mem_nil,
                  or_false] at h
                rcases h with h | rfl
                · exact hsub call h
                · simp [allowedIgCall]
      · split at h
        · -- story
          split at h
          · simp only [List.mem_cons, List.not_mem_nil, or_false] at h
            subst h
            simp [allowedIgCall]
          · split at h
            · split at h
              · simp only [List.mem_cons, List.mem_replicate] at h
                rcases h with rfl | ⟨_, rfl⟩ <;> simp [allowedIgCall]
              · simp only [List.mem_cons, List.mem_replicate] at h
                rcases h with rfl | ⟨_, rfl⟩ <;> simp [allowedIgCall]
            · simp only [List.mem_cons, List.not_mem_nil, or_false] at h
              subst h
              simp [allowedIgCall]
        · simp at h

/-- Error wrapping never changes the call trace. -/
theorem wrapErr_trace (f : Exn → Exn) (p : PyResult AdapterResult × List ApiCall) :
    (wrapErr f p).2 = p.2 := by
  rcases p with ⟨res, calls⟩
  rcases res with e | r <;> rfl

/-- The Instagram publish helper emits only Instagram Graph API calls
carrying the decryption of the stored access token. -/
theorem publishToInstagram_shape (env : IgEnv) (c : Cipher) (post : SocialPost)
    (clip : Clip) (acct : Account) :
    ∀ call : ApiCall, call ∈ (publishToInstagram env c post clip acct).2 →
      allowedIgCall (decrypt_token c acct.accessTokenEnc) call := by
  intro call h
  unfold publishToInstagram at h
  split at h
  · simp at h
  · rename_i tok heq
    rw [heq]
    by_cases hte : tok.isEmpty = true
    · rw [if_pos hte] at h
      simp at h
    · rw [if_neg hte] at h
      split at h
      · simp at h
      · rename_i igid heq2
        by_cases hie : igid.isEmpty = true
        · rw [if_pos hie] at h
          simp at h
        · rw [if_neg hie] at h
          simp only [] at h
          rw [wrapErr_trace] at h
          split at h
          · simp at h
          · rcases hcm : igCreateContainerForClip env tok igid
                (buildCaption post.caption post.hashtags) clip with ⟨res, calls⟩
            rw [hcm] at h
            have hsub : ∀ x ∈ calls, allowedIgCall (some tok) x := fun x hx =>
              igCreateContainerForClip_shape env tok igid
                (buildCaption post.caption post.hashtags) clip x (by rw [hcm]; exact hx)
            rcases res with e | cid
            · simp only [] at h
              exact hsub call h
            · simp only [] at h
              split at h
              · simp only [List.mem_append, List.mem_cons, List.not_mem_nil,
                  or_false] at h
                rcases h with h | rfl
                · exact hsub call h
                · simp [allowedIgCall]
              · split at h <;>
                  simp only [List.mem_append, List.mem_cons, List.not_mem_nil,
                    or_false] at h <;>
                  rcases h with h | rfl | rfl
                all_goals
                  first
                  | exact hsub call h
                  | simp [allowedIgCall]

/-- The chunk upload loop emits only tokenless chunk PUTs. -/
theorem ttUploadChunksLoop_shape (put : Nat → Nat → Nat → PyResult Unit) (total : Nat) :
    ∀ (r start : Nat) (call : ApiCall), call ∈ (ttUploadChunksLoop put total start r).2 →
      ∃ a b, call = ApiCall.ttUploadChunk a b total := by
  intro r
  induction r using Nat.strong_induction_on with
  | _ r ih =>
    intro start call h
    match r with
    | 0 => simp [ttUploadChunksLoop] at h
    | rr + 1 =>
      rw [ttUploadChunksLoop] at h
      simp only [] at h
      have hc1 : 1 ≤ min ttChunkSize (rr + 1) := by
        have : 1 ≤ ttChunkSize := by simp [ttChunkSize]
        omega
      split at h
      · simp only [List.mem_cons, List.not_mem_nil, or_false] at h
        exact ⟨_, _, h⟩
      · simp only [List.mem_cons] at h
        rcases h with rfl | h
        · exact ⟨_, _, rfl⟩
        · exact ih (rr + 1 - min ttChunkSize (rr + 1)) (by omega)
            (start + min ttChunkSize (rr + 1)) call h

/-- The URL-based video init emits exactly one init call with the given
token. -/
theorem publishVideoByUrl_trace (env : TtEnv) (tok url : String) :
    (publishVideoByUrl env tok url).2 = [ApiCall.ttInboxVideoInitUrl tok url] := by
  unfold publishVideoByUrl
  rcases h1 : env.initInboxUrl tok url with e | pid?
  · simp [h1]
  · simp only [h1]
    rcases pid? with _ | pid
    · rfl
    · split <;> (try split) <;> rfl

/-- Membership form of the URL-based init trace. -/
theorem publishVideoByUrl_shape (env : TtEnv) (tok url : String) :
    ∀ call : ApiCall, call ∈ (publishVideoByUrl env tok url).2 →
      allowedTtCall (some tok) call := by
  intro call h
  rw [publishVideoByUrl_trace] at h
  simp only [List.mem_cons, List.not_mem_nil, or_false] at h
  subst h
  simp [allowedTtCall]

/-- The file-based video init emits exactly one init call with the given
token. -/
theorem initVideoUpload_trace (env : TtEnv) (tok : String) (videoSize : Nat)
    (chunkSize : Option Nat) :
    (initVideoUpload env tok videoSize chunkSize).2 =
      [ApiCall.ttInboxVideoInitFile tok videoSize
        (tiktokChunkInfo videoSize chunkSize).1 (tiktokChunkInfo videoSize chunkSize).2] := by
  unfold initVideoUpload
  rcases h1 : env.initInboxFile tok videoSize (tiktokChunkInfo videoSize chunkSize).1
      (tiktokChunkInfo videoSize chunkSize).2 with e | pu
  · simp [h1]
  · simp only [h1]
    rcases pu with ⟨pid?, url?⟩
    rcases pid? with _ | pid <;> rcases url? with _ | u
    · rfl
    · rfl
    · rfl
    · split <;> (try split) <;> rfl

/-- Membership form of the file-based init trace. -/
theorem initVideoUpload_shape (env : TtEnv) (tok : String) (videoSize : Nat)
    (chunkSize : Option Nat) :
    ∀ call : ApiCall, call ∈ (initVideoUpload env tok videoSize chunkSize).2 →
      allowedTtCall (some tok) call := by
  intro call h
  rw [initVideoUpload_trace] at h
  simp only [List.mem_cons, List.not_mem_nil, or_false] at h
  subst h
  simp [allowedTtCall]

/-- The file upload emits only the init call (with the given token) and
tokenless chunk PUTs. -/
theorem uploadVideoFile_shape (env : TtEnv) (tok filePath : String) :
    ∀ call : ApiCall, call ∈ (uploadVideoFile env tok filePath).2 →
      allowedTtCall (some tok) call := by
  intro call h
  unfold uploadVideoFile at h
  simp only [] at h
  split at h
  · simp at h
  · rcases hiv : initVideoUpload env tok (env.fileSize filePath) none with ⟨res, calls⟩
    rw [hiv] at h
    have hsub : ∀ x ∈ calls, allowedTtCall (some tok) x := fun x hx =>
      initVideoUpload_shape env tok (env.fileSize filePath) none x (by rw [hiv]; exact hx)
    rcases res with e | pu
    · simp only [] at h
      exact hsub call h
    · rcases pu with ⟨pid, u⟩
      simp only [] at h
      split at h <;> simp only [List.mem_append] at h <;>
        rcases h with h | h
      · exact hsub call h
      · obtain ⟨a, b, rfl⟩ := ttUploadChunksLoop_shape env.putChunk
          (env.fileSize filePath) (env.fileSize filePath) 0 call h
        simp [allowedTtCall]
      · exact hsub call h
      · obtain ⟨a, b, rfl⟩ := ttUploadChunksLoop_shape env.putChunk
          (env.fileSize filePath) (env.fileSize filePath) 0 call h
        simp [allowedTtCall]

/-- The photo post emits exactly one content init call with the given
token. -/
theorem publishPhotoPost_shape (env : TtEnv) (tok : String) (photoUrls : List String)
    (title privacyLevel : String) (disableComment : Bool) :
    ∀ call : ApiCall,
      call ∈ (publishPhotoPost env tok photoUrls title privacyLevel disableComment).2 →
      allowedTtCall (some tok) call := by
  intro call h
  unfold publishPhotoPost at h
  split at h
  · simp at h
  · split at h
    · simp at h
    · simp only [] at h
      rcases h1 : env.contentInitPhoto tok photoUrls (title.take 2200) privacyLevel
          disableComment with e | pid?
      · rw [h1] at h
        simp only [List.mem_cons, List.not_mem_nil, or_false] at h
        subst h
        simp [allowedTtCall]
      · rw [h1] at h
        rcases pid? with _ | pid <;> simp only [] at h
        · simp only [List.mem_cons, List.not_mem_nil, or_false] at h
          subst h
          simp [allowedTtCall]
        · split at h <;>
            simp only [List.mem_cons, List.not_mem_nil, or_false] at h <;>
            subst h <;> simp [allowedTtCall]

/-- The TikTok publish helper emits only TikTok open API calls carrying
the decryption of the stored access token (plus tokenless chunk PUTs);
in particular it issues no creator-info query and no token refresh. -/
theorem publishToTiktok_shape (env : TtEnv) (c : Cipher) (post : SocialPost)
    (clip : Clip) (acct : Account) :
    ∀ call : ApiCall, call ∈ (publishToTiktok env c post clip acct).2 →
      allowedTtCall (decrypt_token c acct.accessTokenEnc) call := by
  intro call h
  unfold publishToTiktok at h
  split at h
  · simp at h
  · rename_i tok heq
    rw [heq]
    by_cases hte : tok.isEmpty = true
    · rw [if_pos hte] at h
      simp at h
    · rw [if_neg hte] at h
      simp only [] at h
      rw [wrapErr_trace] at h
      split at h
      · -- video or reel
        split at h
        · -- step1 raised
          rename_i e calls1 hs1
          have hsub : ∀ x ∈ calls1, allowedTtCall (some tok) x := by
            intro x hx
            by_cases hfp : isTruthy clip.filePath = true
            · rw [if_pos hfp] at hs1
              exact uploadVideoFile_shape env tok (clip.filePath.getD "") x
                (by rw [hs1]; exact hx)
            · rw [if_neg hfp] at hs1
              by_cases hmu : isTruthy clip.mediaUrl = true
              · rw [if_pos hmu] at hs1
                exact publishVideoByUrl_shape env tok (clip.mediaUrl.getD "") x
                  (by rw [hs1]; exact hx)
              · rw [if_neg hmu] at hs1
                simp only [Prod.mk.injEq] at hs1
                rw [← hs1.2] at hx
                simp at hx
          exact hsub call h
        · -- step1 returned a publish id
          rename_i pid calls1 hs1
          have hsub : ∀ x ∈ calls1, allowedTtCall (some tok) x := by
            intro x hx
            by_cases hfp : isTruthy clip.filePath = true
            · rw [if_pos hfp] at hs1
              exact uploadVideoFile_shape env tok (clip.filePath.getD "") x
                (by rw [hs1]; exact hx)
            · rw [if_neg hfp] at hs1
              by_cases hmu : isTruthy clip.mediaUrl = true
              · rw [if_pos hmu] at hs1
                exact publishVideoByUrl_shape env tok (clip.mediaUrl.getD "") x
                  (by rw [hs1]; exact hx)
              · rw [if_neg hmu] at hs1
                simp at hs1
          split at h <;>
            simp only [List.mem_append, List.mem_replicate] at h <;>
            rcases h with h | ⟨_, rfl⟩
          · exact hsub call h
          · simp [allowedTtCall]
          · exact hsub call h
          · simp [allowedTtCall]
      · split at h
        · -- photo
          split at h
          · simp at h
          · split at h
            · rename_i e calls1 hs1
              exact publishPhotoPost_shape env tok _ _ _ _ call (by rw [hs1]; exact h)
            · rename_i pid calls1 hs1
              have hsub : ∀ x ∈ calls1, allowedTtCall (some tok) x := fun x hx =>
                publishPhotoPost_shape env tok _ _ _ _ x (by rw [hs1]; exact hx)
              split at h <;>
                simp only [List.mem_append, List.mem_replicate] at h <;>
                rcases h with h | ⟨_, rfl⟩
              · exact hsub call h
              · simp [allowedTtCall]
              · exact hsub call h
              · simp [allowedTtCall]
        · simp at h

/-- Whether a call is the TikTok creator-info query. -/
def ApiCall.isCreatorQuery : ApiCall → Bool
  | .ttCreatorInfoQuery _ => true
  | _ => false

/-- Token discipline implied by the Instagram call shape. -/
theorem allowedIgCall_token {d : Option String} {call : ApiCall}
    (h : allowedIgCall d call) :
    call.isRefreshCall = false ∧ (call.callToken = none ∨ call.callToken = d) := by
  cases call <;> simp_all [allowedIgCall, ApiCall.callToken, ApiCall.isRefreshCall]

/-- Token discipline implied by the TikTok call shape, and the absence of
the creator-info query. -/
theorem allowedTtCall_token {d : Option String} {call : ApiCall}
    (h : allowedTtCall d call) :
    call.isRefreshCall = false ∧ call.isCreatorQuery = false ∧
      (call.callToken = none ∨ call.callToken = d) := by
  cases call <;>
    simp_all [allowedTtCall, ApiCall.callToken, ApiCall.isRefreshCall,
      ApiCall.isCreatorQuery]

/-- Claim C3 (amended): the publish helpers take their bearer token by
decrypting the stored access token directly: every network call they
issue either carries exactly decrypt_token of the stored ciphertext or
carries no token (chunk PUTs), and none of them is a token refresh
request.  The vault operation get_valid_access_token, which would refresh
a token inside its expiry buffer, is not part of the publish path, so an
expired-but-refreshable token is used stale. -/
theorem c3_stale_token (igEnv : IgEnv) (ttEnv : TtEnv) (c : Cipher)
    (post : SocialPost) (clip : Clip) (acct : Account) :
    (∀ call ∈ (publishToInstagram igEnv c post clip acct).2,
      call.isRefreshCall = false ∧
        (call.callToken = none ∨ call.callToken = decrypt_token c acct.accessTokenEnc)) ∧
    (∀ call ∈ (publishToTiktok ttEnv c post clip acct).2,
      call.isRefreshCall = false ∧
        (call.callToken = none ∨ call.callToken = decrypt_token c acct.accessTokenEnc)) := by
  constructor
  · intro call h
    exact allowedIgCall_token (publishToInstagram_shape igEnv c post clip acct call h)
  · intro call h
    have := allowedTtCall_token (publishToTiktok_shape ttEnv c post clip acct call h)
    exact ⟨this.1, this.2.2⟩

/-- Fixture Instagram environment for C3: every Graph API call
succeeds. -/
def c3IgEnv : IgEnv :=
  ⟨fun _ _ _ _ => .ok "c1", fun _ _ _ _ _ => .ok "c2",
   fun _ _ _ => .ok ⟨some "FINISHED", none⟩, fun _ _ _ _ => .ok "c3",
   fun _ _ _ _ => .ok "c4", fun _ _ _ => .ok "m1",
   fun _ _ => .ok (some "https://www.instagram.com/p/m1")⟩

/-- Fixture Instagram post for C3. -/
def c3Post : SocialPost :=
  ⟨1, 7, 2, .instagram, none, some "hi", none, none, none, .publishing, none, none, none⟩

/-- Fixture image clip for C3. -/
def c3Clip : Clip := ⟨2, some "http://m.jpg", some "image", none, [], [], none, none, none, none⟩

/-- Fixture Instagram account for C3: the stored token is expired (expiry
in the past) but the account is refreshable. -/
def c3Acct : Account :=
  ⟨5, 7, "instagram", "u", some "Xstale", none, some 0, true,
    [("instagram_business_account_id", "ig1"), ("facebook_page_id", "pg1")]⟩

/-- Fixture OAuth environment for C3: refresh would succeed. -/
def c3OAuthEnv : OAuthEnv :=
  ⟨fun _ _ => .ok ⟨some "fresh", none, some 5000⟩, fun _ _ => .ok (some "freshpage")⟩

/-- Counterexample for C3: publishing on an account whose token is
expired but refreshable does not trigger a refresh.  Every call of the
publish trace carries the stale decrypted token and no refresh request
appears, while the vault operation get_valid_access_token at the same
account does refresh (issuing the token refresh and page-token calls). -/
theorem c3_counterexample :
    (publishToInstagram c3IgEnv xCipher c3Post c3Clip c3Acct).2 =
      [.igCreateImageContainer "stale" "ig1" "http://m.jpg" (some "hi"),
       .igPublishContainer "stale" "ig1" "c1",
       .igGetMediaDetails "stale" "m1"] ∧
    decrypt_token xCipher c3Acct.accessTokenEnc = some "stale" ∧
    ((publishToInstagram c3IgEnv xCipher c3Post c3Clip c3Acct).2.all
      (fun call => !call.isRefreshCall)) = true ∧
    (getValidAccessToken c3OAuthEnv xCipher 100 c3Acct).refreshAttempted = true ∧
    (getValidAccessToken c3OAuthEnv xCipher 100 c3Acct).calls =
      [.oauthTokenRefresh "instagram", .oauthPageTokenFetch "pg1"] :=
  ⟨rfl, rfl, rfl, rfl, rfl⟩

/-- Witness for C3 at the concrete fixtures: the first call of the
concrete publish trace is in the trace and obeys the token discipline. -/
theorem c3_stale_token_witness :
    ApiCall.igCreateImageContainer "stale" "ig1" "http://m.jpg" (some "hi") ∈
      (publishToInstagram c3IgEnv xCipher c3Post c3Clip c3Acct).2 ∧
    (ApiCall.igCreateImageContainer "stale" "ig1" "http://m.jpg" (some "hi")).isRefreshCall
        = false ∧
    ((ApiCall.igCreateImageContainer "stale" "ig1" "http://m.jpg" (some "hi")).callToken
        = none ∨
      (ApiCall.igCreateImageContainer "stale" "ig1" "http://m.jpg" (some "hi")).callToken
        = decrypt_token xCipher c3Acct.accessTokenEnc) := by
  have hmem : ApiCall.igCreateImageContainer "stale" "ig1" "http://m.jpg" (some "hi") ∈
      (publishToInstagram c3IgEnv xCipher c3Post c3Clip c3Acct).2 := by decide
  have h := (c3_stale_token c3IgEnv
    ⟨fun _ => .error ⟨"E", "x"⟩, fun _ _ => .error ⟨"E", "x"⟩,
     fun _ _ _ _ => .error ⟨"E", "x"⟩, fun _ _ _ _ _ => .error ⟨"E", "x"⟩,
     fun _ _ _ => .error ⟨"E", "x"⟩, fun _ _ _ => .error ⟨"E", "x"⟩, fun _ => 0⟩
    xCipher c3Post c3Clip c3Acct).1 _ hmem
  exact ⟨hmem, h.1, h.2⟩

/-- Fixture TikTok environment for C6: every call succeeds and the first
status poll reports completion. -/
def c6TtEnv : TtEnv :=
  ⟨fun _ => .ok ⟨["PUBLIC_TO_EVERYONE"], false, false, false⟩,
   fun _ _ => .ok (some "pid6"),
   fun _ _ _ _ => .ok (some "p", some "u"),
   fun _ _ _ _ _ => .ok (some "pp"),
   fun _ _ _ => .ok (),
   fun _ _ _ => .ok ⟨some "PUBLISH_COMPLETE", none, []⟩,
   fun _ => 0⟩

/-- Fixture TikTok post for C6. -/
def c6Post : SocialPost :=
  ⟨3, 7, 2, .tiktok, none, some "cap", none, none, none, .publishing, none, none, none⟩

/-- Fixture video clip for C6 (published by URL). -/
def c6Clip : Clip := ⟨2, some "http://v.mp4", some "video", none, [], [], none, none, none, none⟩

/-- Fixture TikTok account for C6. -/
def c6Acct : Account := ⟨6, 7, "tiktok", "u", some "Xtok6", none, none, true, []⟩

/-- Counterexample for C6: a concrete TikTok publish through the service
helper issues exactly the init call and one status fetch; no
creator-info query precedes the init, and the init (an inbox init)
carries no privacy or interaction settings at all. -/
theorem c6_counterexample :
    (publishToTiktok c6TtEnv xCipher c6Post c6Clip c6Acct).2 =
      [.ttInboxVideoInitUrl "tok6" "http://v.mp4", .ttStatusFetch "tok6" "pid6"] ∧
    ((publishToTiktok c6TtEnv xCipher c6Post c6Clip c6Acct).2.all
      (fun call => !call.isCreatorQuery)) = true :=
  ⟨rfl, rfl⟩

/-- Claim C6 (amended): the service-level TikTok publish path used by the
orchestrator never issues a creator-info query (and its video init calls
carry no privacy or interaction settings, being inbox inits); the
creator-info enforcement lives in the HTTP endpoint layer, whose
validation queries creator info before the init call and overrides the
caller's request: each interaction lock reported by the creator info
forces the corresponding disable flag on, and a requested privacy level
outside the allowed options is replaced by the first allowed option. -/
theorem c6_creator_info (env : TtEnv) (c : Cipher) (post : SocialPost) (clip : Clip)
    (acct : Account) (ci : CreatorInfo) (privacyLevel : String)
    (dd dc ds bct : Bool) (tok videoUrl : String) :
    (∀ call ∈ (publishToTiktok env c post clip acct).2, call.isCreatorQuery = false) ∧
    (ci.duetDisabled = true →
      (validateWithCreatorInfo ci privacyLevel dd dc ds bct).2.1 = true) ∧
    (ci.commentDisabled = true →
      (validateWithCreatorInfo ci privacyLevel dd dc ds bct).2.2.1 = true) ∧
    (ci.stitchDisabled = true →
      (validateWithCreatorInfo ci privacyLevel dd dc ds bct).2.2.2 = true) ∧
    (ci.privacyLevelOptions ≠ [] → privacyLevel ∉ ci.privacyLevelOptions → bct = false →
      (validateWithCreatorInfo ci privacyLevel dd dc ds bct).1 =
        ci.privacyLevelOptions.headD privacyLevel) ∧
    ((endpointPublishVideoByUrl env tok videoUrl privacyLevel dd dc ds bct).2.head? =
      some (.ttCreatorInfoQuery tok)) := by
  refine ⟨?_, ?_, ?_, ?_, ?_, ?_⟩
  · intro call h
    exact (allowedTtCall_token (publishToTiktok_shape env c post clip acct call h)).2.1
  · intro h
    simp [validateWithCreatorInfo, h]
  · intro h
    simp [validateWithCreatorInfo, h]
  · intro h
    simp [validateWithCreatorInfo, h]
  · intro h1 h2 h3
    simp [validateWithCreatorInfo, h1, h2, h3]
  · unfold endpointPublishVideoByUrl
    rcases hq : env.creatorInfoQuery tok with e | ci2 <;> simp [hq]

/-- Witness for C6 at concrete inputs: no creator query in the concrete
publish trace, locks forced on and privacy overridden at a concrete
creator info, and the endpoint flow opening with the creator query. -/
theorem c6_creator_info_witness :
    (ApiCall.ttInboxVideoInitUrl "tok6" "http://v.mp4").isCreatorQuery = false ∧
    (validateWithCreatorInfo ⟨["SELF_ONLY"], true, true, true⟩ "PUBLIC_TO_EVERYONE"
      false false false false).2.1 = true ∧
    (validateWithCreatorInfo ⟨["SELF_ONLY"], true, true, true⟩ "PUBLIC_TO_EVERYONE"
      false false false false).2.2.1 = true ∧
    (validateWithCreatorInfo ⟨["SELF_ONLY"], true, true, true⟩ "PUBLIC_TO_EVERYONE"
      false false false false).2.2.2 = true ∧
    (validateWithCreatorInfo ⟨["SELF_ONLY"], true, true, true⟩ "PUBLIC_TO_EVERYONE"
      false false false false).1 = "SELF_ONLY" ∧
    ((endpointPublishVideoByUrl c6TtEnv "tok6" "http://v.mp4" "PUBLIC_TO_EVERYONE"
      false false false false).2.head? = some (.ttCreatorInfoQuery "tok6")) := by
  have h := c6_creator_info c6TtEnv xCipher c6Post c6Clip c6Acct
    ⟨["SELF_ONLY"], true, true, true⟩ "PUBLIC_TO_EVERYONE" false false false false
    "tok6" "http://v.mp4"
  refine ⟨?_, h.2.1 rfl, h.2.2.1 rfl, h.2.2.2.1 rfl, ?_, h.2.2.2.2.2⟩
  · exact h.1 (ApiCall.ttInboxVideoInitUrl "tok6" "http://v.mp4") (by decide)
  · have := h.2.2.2.2.1 (by decide) (by decide) rfl
    simpa using this

end ContentClipper
